import Mathlib

/-!
Shallow embedding of the trade-execution and credential-lifecycle core of the
equialgo-scraper repository (src/src/trader.ts multi-portfolio variant,
src/unnamed/part_004 = tradier-client.ts, src/unnamed/part_007 = types.ts +
state.ts), together with proofs that settle the frozen claims C1..C10.

Modelling conventions:
* JavaScript numbers are modelled as `ℚ` (no floating point is involved in any
  claim-relevant branch except `toFixed(2)`, which is modelled as exact decimal
  rounding of the rational value).
* The credential database is a pair of per-portfolio partial maps; the
  libsql statements `DELETE` + `INSERT ... ON CONFLICT DO UPDATE` become map
  updates exactly mirroring the SQL in state.ts.
* Network I/O is modelled by oracles inside a `World` state: each broker
  endpoint consumes the next element of its outcome list; every network order
  submission is additionally appended to a log so that claims about "number of
  network attempts" are about the log.
* `throw` in TypeScript becomes `Except.error` over a `JsErr` value keeping the
  distinctions the code itself tests (`status === 401`,
  `SchwabAuthError` + `code`); `try/catch` becomes a match on the result.
* The recursive retry pattern (`placeBuyOrder` calling itself after a refresh)
  is embedded with explicit fuel; theorems show the recursive branch is dead on
  the direct-POST path, so results do not depend on the fuel.
-/

namespace EquiAlgo

/-! ## Credential store (state.ts) -/

inductive Brokerage
  | schwab
  | tradier
deriving DecidableEq, Repr

/-- Row of the `schwab_credentials` table / `SchwabCredentials` interface. -/
structure SchwabCredentials where
  accessToken : String
  refreshToken : String
  redirectUri : Option String := none
  accountNumber : Option String := none
deriving DecidableEq, Repr

/-- Row of the `tradier_credentials` table / `TradierCredentials` interface. -/
structure TradierCredentials where
  apiKey : String
  accountId : Option String := none
  sandbox : Bool
deriving DecidableEq, Repr

/-- The credential database: one optional row per portfolio and broker table. -/
structure Store where
  schwab : Nat → Option SchwabCredentials
  tradier : Nat → Option TradierCredentials

/-- `readSchwabCredentials` (state.ts): returns null unless both
`access_token` and `refresh_token` are truthy (JS: empty string is falsy). -/
def readSchwabCredentials (s : Store) (pid : Nat) : Option SchwabCredentials :=
  match s.schwab pid with
  | none => none
  | some row =>
    if row.accessToken = "" ∨ row.refreshToken = "" then none else some row

/-- Strip leading whitespace from a character list (structural, so that
concrete evaluation reduces; `String.trim` itself is defined by well-founded
recursion and does not). -/
def stripLeading : List Char → List Char
  | [] => []
  | c :: rest => if c.isWhitespace then stripLeading rest else c :: rest

/-- JavaScript `String.prototype.trim()` (ASCII whitespace, which covers every
string the claims exercise). -/
def jsTrim (s : String) : String :=
  ⟨(stripLeading (stripLeading s.data.reverse).reverse)⟩

/-- JavaScript `Math.floor` on a rational: `⌊q⌋`, written through `Rat.num` /
`Rat.den` so that it is directly executable. -/
def jsFloor (q : ℚ) : ℤ := q.num / q.den

theorem jsFloor_eq_floor (q : ℚ) : jsFloor q = Int.floor q := Rat.floor_def.symm

/-- `readTradierCredentials` (state.ts): returns null unless
`api_key.trim()` is truthy. -/
def readTradierCredentials (s : Store) (pid : Nat) : Option TradierCredentials :=
  match s.tradier pid with
  | none => none
  | some row => if jsTrim row.apiKey = "" then none else some row

/-- `writeSchwabCredentials` (state.ts): `DELETE FROM tradier_credentials WHERE
portfolio_id = ?` then upsert into `schwab_credentials`. -/
def writeSchwabCredentials (s : Store) (pid : Nat) (c : SchwabCredentials) : Store where
  schwab := fun p => if p = pid then some c else s.schwab p
  tradier := fun p => if p = pid then none else s.tradier p

/-- `writeTradierCredentials` (state.ts): `DELETE FROM schwab_credentials WHERE
portfolio_id = ?` then upsert into `tradier_credentials`. -/
def writeTradierCredentials (s : Store) (pid : Nat) (c : TradierCredentials) : Store where
  schwab := fun p => if p = pid then none else s.schwab p
  tradier := fun p => if p = pid then some c else s.tradier p

/-- `getPortfolioBrokerage` (state.ts). -/
def getPortfolioBrokerage (s : Store) (pid : Nat) : Option Brokerage :=
  if (readSchwabCredentials s pid).isSome then some .schwab
  else if (readTradierCredentials s pid).isSome then some .tradier
  else none

/-! ## Static configuration (environment variables) -/

inductive SchwabOrderType
  | market
  | limit
deriving DecidableEq, Repr

inductive TradierOrderType
  | market
  | limit
deriving DecidableEq, Repr

/-- The environment-variable configuration the trader reads at module load. -/
structure Config where
  enableTrading : Bool
  orderType : SchwabOrderType
  tradierEnableTrading : Bool
  tradierOrderType : TradierOrderType
  clientId : Option String := some "cid"
  clientSecret : Option String := some "sec"
deriving Repr

/-! ## Errors -/

/-- A thrown JavaScript error, keeping exactly the structure the code tests:
`SchwabAuthError` with its `code`, an `Error` with an attached HTTP `status`,
or a plain `Error` with only a message. -/
inductive JsErr
  | http (status : Nat) (message : String)
  | schwabAuth (code : String) (message : String)
  | plain (message : String)
deriving DecidableEq, Repr

/-- `error.message` (all modelled errors are `Error` instances). -/
def JsErr.message : JsErr → String
  | .http _ m => m
  | .schwabAuth _ m => m
  | .plain m => m

/-- `isSchwabAuthError(error) && error.code === "TOKEN_EXPIRED"`. -/
def isTokenExpired : JsErr → Bool
  | .schwabAuth code _ => code = "TOKEN_EXPIRED"
  | _ => false

/-- `(err as { status?: number }).status === 401`. -/
def JsErr.is401 : JsErr → Bool
  | .http 401 _ => true
  | _ => false

/-! ## Tradier client, pure parts (tradier-client.ts) -/

/-- Entry of `profile.accounts` in the Tradier profile response. -/
structure TradierProfileAccount where
  account_number : Option String := none
  status : Option String := none
deriving DecidableEq, Repr

/-- Item of the Tradier positions response. `quantity` is `none` when the
field is absent or not a number (`Number(undefined)` is `NaN`). -/
structure TradierPositionItem where
  symbol : Option String := none
  quantity : Option ℚ := none
deriving DecidableEq, Repr

/-- `data.positions?.position`: a broker may return a single object or a
list; `none` at the outer level models a missing or null `positions` node. -/
inductive TradierPositionNode
  | single (item : TradierPositionItem)
  | many (items : List TradierPositionItem)
deriving DecidableEq, Repr

structure TradierPositionsResponse where
  positions : Option TradierPositionNode := none
deriving DecidableEq, Repr

structure TradierPosition where
  symbol : String
  longQuantity : Int
deriving DecidableEq, Repr

/-- Pure part of `getTradierPositions` after `res.json()`: normalise single
object vs list, keep entries with a truthy trimmed symbol and a parseable
quantity strictly greater than zero, and `Math.floor` the quantity. -/
def parseTradierPositions (resp : TradierPositionsResponse) : List TradierPosition :=
  match resp.positions with
  | none => []
  | some node =>
    let list := match node with
      | .single i => [i]
      | .many l => l
    list.filterMap fun p =>
      match p.symbol.map jsTrim, p.quantity with
      | some s, some q =>
        if s ≠ "" ∧ 0 < q then some ⟨s, jsFloor q⟩ else none
      | _, _ => none

/-- Order side (`instruction` "BUY"/"SELL" for Schwab, `side` "buy"/"sell"
for Tradier). -/
inductive Instruction
  | buy
  | sell
deriving DecidableEq, Repr

/-- `Number.prototype.toFixed(2)` modelled as exact rounding of the rational
value to two decimal places (round half up; the claims' counterexamples are
away from ties, so the tie-breaking mode is immaterial). -/
def toFixed2 (q : ℚ) : ℚ := (jsFloor (q * 100 + 1 / 2) : ℚ) / 100

/-- The form-encoded parameters built in `placeTradierOrder`:
`class=equity`, trimmed symbol, side, `Math.floor`ed quantity, type,
`duration=day`, and a price only for limit orders with a present, non-NaN
price — set to `price.toFixed(2)`. -/
structure TradierOrderParams where
  symbol : String
  side : Instruction
  quantity : Int
  type : TradierOrderType
  price : Option ℚ := none
deriving DecidableEq, Repr

def buildTradierOrderParams (type : TradierOrderType) (side : Instruction)
    (symbol : String) (quantity : ℚ) (price : Option ℚ) : TradierOrderParams where
  symbol := jsTrim symbol
  side := side
  quantity := jsFloor quantity
  type := type
  price :=
    match type, price with
    | .limit, some p => some (toFixed2 p)
    | _, _ => none

/-- `data.order?.id` of the Tradier order response, collapsed to the only
field the code reads. -/
structure TradierOrderResponse where
  orderId : Option Int := none
deriving DecidableEq, Repr

/-! ## Schwab order body (trader.ts) -/

/-- The JSON order body built in `placeBuyOrder` / `placeSellOrder`; `session`,
`duration`, `orderStrategyType` and `assetType` are the fixed literals
`"NORMAL"`, `"DAY"`, `"SINGLE"`, `"EQUITY"` and are omitted. `price` is set
(verbatim) only when the configured order type is LIMIT. -/
structure SchwabOrderBody where
  orderType : SchwabOrderType
  instruction : Instruction
  quantity : ℚ
  symbol : String
  price : Option ℚ := none
deriving DecidableEq, Repr

def buildSchwabOrderBody (orderType : SchwabOrderType) (instr : Instruction)
    (symbol : String) (shares : ℚ) (price : ℚ) : SchwabOrderBody where
  orderType := orderType
  instruction := instr
  quantity := shares
  symbol := symbol
  price := if orderType = .limit then some price else none

/-! ## Network oracles and world state -/

/-- `{ orderId?: number }` parsed from the direct Schwab order POST. -/
structure PlaceOrderResponseBody where
  orderId : Option Int := none
deriving DecidableEq, Repr

/-- Outcome of one `fetch` in `doPost`: an OK response with parsed body, a
non-OK response with status / statusText / extracted message, or a rejected
fetch (network error). -/
inductive PostOutcome
  | ok (body : PlaceOrderResponseBody)
  | httpErr (status : Nat) (statusText : String) (detail : Option String)
  | netErr (message : String)
deriving DecidableEq, Repr

/-- Outcome of one generic broker HTTP call: OK with parsed payload, non-OK
with status and body text, or a rejected fetch. -/
inductive HttpOutcome (α : Type)
  | ok (payload : α)
  | fail (status : Nat) (text : String)
  | netErr (message : String)
deriving DecidableEq, Repr

/-- `newTokens.refreshToken` may be absent (brokers may reuse refresh
tokens). -/
structure TokenData where
  accessToken : String
  refreshToken : Option String := none
deriving DecidableEq, Repr

/-- Outcome of one `auth.refresh(refreshToken)` call. -/
inductive RefreshRaw
  | success (tokens : TokenData)
  | failure (e : JsErr)
deriving DecidableEq, Repr

/-- Entry of the raw `getAccountNumbers()` response. -/
structure RawAccountEntry where
  accountNumber : Option String := none
  hashValue : Option String := none
deriving DecidableEq, Repr

/-- Raw position entry of the Schwab account-by-number response; the `none`
symbol models a missing `instrument.symbol`. -/
structure RawSchwabPosition where
  symbol : Option String := none
  longQuantity : Option ℚ := none
  shortQuantity : Option ℚ := none
  currentDayProfitLoss : Option ℚ := none
  currentDayProfitLossPercentage : Option ℚ := none
  longOpenProfitLoss : Option ℚ := none
  marketValue : Option ℚ := none
deriving DecidableEq, Repr

/-- `account.securitiesAccount?.positions` when it is an array, else `none`. -/
abbrev SchwabAccountRaw := Option (List RawSchwabPosition)

/-- Process-wide state: the credential database, the module-level caches
(`schwabClientByPortfolio`, `accountHashByPortfolio`), one oracle list per
broker endpoint (consumed front to back, with a network-failure default once
exhausted), and observation logs for submitted orders and refresh calls. -/
structure World where
  store : Store
  clientCache : Nat → Bool
  hashCache : Nat → Option String
  refreshRaws : List RefreshRaw := []
  postOutcomes : List PostOutcome := []
  accountNumbersOutcomes : List (Except JsErr (List RawAccountEntry)) := []
  schwabAccountOutcomes : List (Except JsErr SchwabAccountRaw) := []
  tradierProfileOutcomes : List (HttpOutcome (Option (List TradierProfileAccount))) := []
  tradierPositionsOutcomes : List (HttpOutcome TradierPositionsResponse) := []
  tradierOrderOutcomes : List (HttpOutcome TradierOrderResponse) := []
  orderPosts : List SchwabOrderBody := []
  tradierOrderLog : List TradierOrderParams := []
  refreshCalls : Nat := 0

/- Oracle consumption: the next outcome of a list `l` is `l.headD d` (with a
network-failure default `d` once the list is exhausted) and the remaining
oracle is `l.tail`. -/

/-! ## Token refresh (trader.ts `refreshTokensIfNeeded`) -/

/-- `refreshTokensIfNeeded(portfolioId)`: read the stored refresh token (throw
if none), call `auth.refresh`; on success persist the new tokens — the refresh
token falling back to the stored one when the broker omits it — leaving
`redirectUri` and `accountNumber` as currently stored, then evict the cached
client and account hash for the portfolio. A `SchwabAuthError` with code
`TOKEN_EXPIRED` from the refresh itself is converted to a plain error asking
for re-authentication; other errors are rethrown. -/
def refreshTokensIfNeeded (pid : Nat) (w : World) : Except JsErr TokenData × World :=
  match readSchwabCredentials w.store pid with
  | none =>
    (.error (.plain "No refresh token for this portfolio; re-run Schwab OAuth login."), w)
  | some _creds =>
    let raw := w.refreshRaws.headD (.failure (.plain "refresh network failure"))
    let w1 : World := { w with refreshRaws := w.refreshRaws.tail, refreshCalls := w.refreshCalls + 1 }
    match raw with
    | .failure e =>
      if isTokenExpired e then
        (.error (.plain "Refresh token expired. Please re-authenticate through Schwab's OAuth flow."), w1)
      else
        (.error e, w1)
    | .success tok =>
      let current := readSchwabCredentials w1.store pid
      let newCreds : SchwabCredentials :=
        { accessToken := tok.accessToken
          refreshToken := ((tok.refreshToken).orElse fun _ => current.map (·.refreshToken)).getD ""
          redirectUri := current.bind (·.redirectUri)
          accountNumber := current.bind (·.accountNumber) }
      (.ok tok,
        { w1 with
          store := writeSchwabCredentials w1.store pid newCreds
          clientCache := fun p => if p = pid then false else w1.clientCache p
          hashCache := fun p => if p = pid then none else w1.hashCache p })

/-! ## Schwab client and account hash (trader.ts) -/

/-- `initializeSchwabClient(portfolioId)`: return the cached client if there is
one; otherwise require stored access and refresh tokens (throw the OAuth-login
error if absent) and the app client id / secret, then construct and cache the
client. The client object itself is opaque; only cache membership matters. -/
def initializeSchwabClient (cfg : Config) (pid : Nat) (w : World) : Except JsErr Unit × World :=
  if w.clientCache pid then (.ok (), w)
  else
    match readSchwabCredentials w.store pid with
    | none =>
      (.error (.plain "Schwab credentials are required for this portfolio. Complete the Schwab OAuth login (UI or pnpm run schwab-login)."), w)
    | some _ =>
      if cfg.clientId.isNone ∨ cfg.clientSecret.isNone then
        (.error (.plain "SCHWAB_CLIENT_ID and SCHWAB_CLIENT_SECRET (in .env or app config) are required"), w)
      else
        (.ok (), { w with clientCache := fun p => if p = pid then true else w.clientCache p })

/-- `parseAccountNumbersResponse`: keep entries having both fields. -/
def parseAccountNumbersResponse (raw : List RawAccountEntry) : List (String × String) :=
  raw.filterMap fun o =>
    match o.accountNumber, o.hashValue with
    | some a, some h => some (a, h)
    | _, _ => none

/-- `getAccountHashFromApi(portfolioId)`: cached hash, or initialise the
client, call `getAccountNumbers()`, take the first parsed entry's hash (throw
if there is none or it trims to empty) and cache it. -/
def getAccountHashFromApi (cfg : Config) (pid : Nat) (w : World) : Except JsErr String × World :=
  match w.hashCache pid with
  | some h => (.ok h, w)
  | none =>
    let r := initializeSchwabClient cfg pid w
    match r.1 with
    | .error e => (.error e, r.2)
    | .ok _ =>
      let w1 := r.2
      let raw := w1.accountNumbersOutcomes.headD (.error (.plain "getAccountNumbers network failure"))
      let w2 : World := { w1 with accountNumbersOutcomes := w1.accountNumbersOutcomes.tail }
      match raw with
      | .error e => (.error e, w2)
      | .ok entries =>
        match (parseAccountNumbersResponse entries).head? with
        | none =>
          (.error (.plain "Schwab getAccountNumbers() did not return a hash for this portfolio. Re-run Schwab OAuth login."), w2)
        | some (_, h) =>
          if jsTrim h = "" then
            (.error (.plain "Schwab getAccountNumbers() did not return a hash for this portfolio. Re-run Schwab OAuth login."), w2)
          else
            (.ok h, { w2 with hashCache := fun p => if p = pid then some h else w2.hashCache p })

/-! ## Direct order POST (trader.ts `placeOrderViaDirectPost`) -/

/-- The pure mapping from one fetch outcome to the result of `doPost`: an OK
response yields the parsed body; a non-OK response throws an `Error` with the
formatted message and the HTTP status attached; a rejected fetch rethrows. -/
def doPostResult : PostOutcome → Except JsErr PlaceOrderResponseBody
  | .ok b => .ok b
  | .httpErr status statusText detail =>
    .error (.http status
      ("Schwab place order failed: " ++ toString status ++ " " ++ statusText ++
        (match detail with
         | some m => " - " ++ m
         | none => "")))
  | .netErr m => .error (.plain m)

/-- One `doPost(accessToken)` call: consume the next fetch outcome and log the
submitted order body. -/
def doPost (body : SchwabOrderBody) (w : World) : Except JsErr PlaceOrderResponseBody × World :=
  (doPostResult (w.postOutcomes.headD (.netErr "fetch failed")),
    { w with postOutcomes := w.postOutcomes.tail, orderPosts := w.orderPosts ++ [body] })

/-- `placeOrderViaDirectPost(portfolioId, accountNumber, orderBody)`: require a
stored access token, POST once; on an error with `status === 401` refresh the
tokens (errors from the refresh propagate), re-read the credentials and POST
the same body once more if an access token is present, else rethrow the
original error. Non-401 errors are rethrown. The `accountNumber` only shapes
the URL and is otherwise unobservable. -/
def placeOrderViaDirectPost (pid : Nat) (_accountNumber : String)
    (body : SchwabOrderBody) (w : World) : Except JsErr PlaceOrderResponseBody × World :=
  match readSchwabCredentials w.store pid with
  | none => (.error (.plain "Schwab credentials missing or no access token."), w)
  | some _creds =>
    let r1 := doPost body w
    match r1.1 with
    | .ok b => (.ok b, r1.2)
    | .error err =>
      if err.is401 then
        let r2 := refreshTokensIfNeeded pid r1.2
        match r2.1 with
        | .error e => (.error e, r2.2)
        | .ok _ =>
          match readSchwabCredentials r2.2.store pid with
          | some _ => doPost body r2.2
          | none => (.error err, r2.2)
      else
        (.error err, r1.2)

/-! ## Tradier network calls (tradier-client.ts) -/

/-- `getTradierAccountId`: fetch the user profile, throw on a non-OK response
or when no account is listed; pick the first non-closed account, else the
first, and require its trimmed `account_number`. -/
def getTradierAccountId (w : World) : Except JsErr String × World :=
  let out := w.tradierProfileOutcomes.headD (.netErr "fetch failed")
  let w1 : World := { w with tradierProfileOutcomes := w.tradierProfileOutcomes.tail }
  match out with
  | .netErr m => (.error (.plain m), w1)
  | .fail status text =>
    (.error (.plain ("Tradier profile failed: " ++ toString status ++ " " ++ text)), w1)
  | .ok payload =>
    match payload with
    | none => (.error (.plain "Tradier profile returned no accounts"), w1)
    | some accounts =>
      match accounts with
      | [] => (.error (.plain "Tradier profile returned no accounts"), w1)
      | a0 :: _ =>
        let active := accounts.find? fun a => ((a.status.getD "").toLower ≠ "closed" : Bool)
        let account := active.getD a0
        match account.account_number.map jsTrim with
        | none => (.error (.plain "Tradier profile did not include account_number"), w1)
        | some n =>
          if n = "" then (.error (.plain "Tradier profile did not include account_number"), w1)
          else (.ok n, w1)

/-- `getTradierPositions` network wrapper around `parseTradierPositions`. -/
def getTradierPositionsCall (w : World) : Except JsErr (List TradierPosition) × World :=
  let out := w.tradierPositionsOutcomes.headD (.netErr "fetch failed")
  let w1 : World := { w with tradierPositionsOutcomes := w.tradierPositionsOutcomes.tail }
  match out with
  | .netErr m => (.error (.plain m), w1)
  | .fail status text =>
    (.error (.plain ("Tradier positions failed: " ++ toString status ++ " " ++ text)), w1)
  | .ok resp => (.ok (parseTradierPositions resp), w1)

/-- `placeTradierOrder`: throw when Tradier trading is disabled (before any
network call); otherwise build the form parameters, POST them (logged), throw
on a non-OK response, and return the optional order id as a string. -/
def placeTradierOrder (cfg : Config) (side : Instruction) (symbol : String)
    (quantity : ℚ) (price : Option ℚ) (orderType : Option TradierOrderType)
    (w : World) : Except JsErr (Option String) × World :=
  if ¬ cfg.tradierEnableTrading then
    (.error (.plain "Trading is disabled (TRADIER_ENABLE_TRADING=false)"), w)
  else
    let type := orderType.getD cfg.tradierOrderType
    let params := buildTradierOrderParams type side symbol quantity price
    let out := w.tradierOrderOutcomes.headD (.netErr "fetch failed")
    let w1 : World :=
      { w with tradierOrderOutcomes := w.tradierOrderOutcomes.tail,
               tradierOrderLog := w.tradierOrderLog ++ [params] }
    match out with
    | .netErr m => (.error (.plain m), w1)
    | .fail status text =>
      (.error (.plain ("Tradier place order failed: " ++ toString status ++ " " ++ text)), w1)
    | .ok resp => (.ok (resp.orderId.map toString), w1)

/-- `resolveTradierAccountId(portfolioId, creds)`: a stored, non-blank account
id wins; otherwise look it up via the profile endpoint and persist it back into
the Tradier credentials. -/
def resolveTradierAccountId (pid : Nat) (creds : TradierCredentials)
    (w : World) : Except JsErr String × World :=
  match creds.accountId.map jsTrim with
  | some a =>
    if a ≠ "" then (.ok a, w)
    else
      let r := getTradierAccountId w
      match r.1 with
      | .error e => (.error e, r.2)
      | .ok accountId =>
        let newCreds : TradierCredentials :=
          { apiKey := creds.apiKey, accountId := some accountId, sandbox := creds.sandbox }
        (.ok accountId, { r.2 with store := writeTradierCredentials r.2.store pid newCreds })
  | none =>
    let r := getTradierAccountId w
    match r.1 with
    | .error e => (.error e, r.2)
    | .ok accountId =>
      let newCreds : TradierCredentials :=
        { apiKey := creds.apiKey, accountId := some accountId, sandbox := creds.sandbox }
      (.ok accountId, { r.2 with store := writeTradierCredentials r.2.store pid newCreds })

/-! ## Positions (trader.ts `getCurrentPositions`) -/

/-- The `Position` interface of trader.ts (multi-portfolio variant). -/
structure Position where
  symbol : String
  longQuantity : ℚ
  shortQuantity : ℚ
  currentDayProfitLoss : Option ℚ := none
  currentDayProfitLossPercentage : Option ℚ := none
  longOpenProfitLoss : Option ℚ := none
  marketValue : Option ℚ := none
deriving DecidableEq, Repr

/-- A JS `Map<string, Position>` in insertion order. -/
abbrev PositionsMap := List (String × Position)

/-- `Map.set`: replace in place if the key is present, else append. -/
def mapSet (m : PositionsMap) (k : String) (v : Position) : PositionsMap :=
  if m.any fun e => e.1 = k then
    m.map fun e => if e.1 = k then (k, v) else e
  else
    m ++ [(k, v)]

/-- `Map.get`. -/
def mapGet (m : PositionsMap) (k : String) : Option Position :=
  (m.find? fun e => e.1 = k).map (·.2)

/-- The Schwab loop of `getCurrentPositions`: entries with a truthy
`instrument.symbol` are inserted keyed by symbol, quantities defaulting to 0
via `??`. -/
def buildSchwabPositionsMap (raw : List RawSchwabPosition) : PositionsMap :=
  raw.foldl
    (fun m p =>
      match p.symbol with
      | none => m
      | some s =>
        if s = "" then m
        else
          mapSet m s
            { symbol := s
              longQuantity := p.longQuantity.getD 0
              shortQuantity := p.shortQuantity.getD 0
              currentDayProfitLoss := p.currentDayProfitLoss
              currentDayProfitLossPercentage := p.currentDayProfitLossPercentage
              longOpenProfitLoss := p.longOpenProfitLoss
              marketValue := p.marketValue })
    []

/-- The Tradier branch of `getCurrentPositions`: re-key the parsed positions
into the map with `shortQuantity` 0 and no valuation fields. -/
def buildTradierPositionsMap (positions : List TradierPosition) : PositionsMap :=
  positions.foldl
    (fun m p =>
      mapSet m p.symbol
        { symbol := p.symbol, longQuantity := (p.longQuantity : ℚ), shortQuantity := 0 })
    []

/-- `getCurrentPositions(portfolioId)`: Tradier portfolios go through the
Tradier client (credentials required, account id resolved — possibly persisted
— then positions fetched); every other portfolio (including one with no
binding) takes the Schwab path: initialise the client, resolve the account
hash, fetch the account with positions; a `SchwabAuthError` with code
`TOKEN_EXPIRED` triggers a refresh and a recursive retry (fuel-bounded here),
any other error is rethrown. -/
def getCurrentPositions (cfg : Config) (fuel : Nat) (pid : Nat) (w : World) :
    Except JsErr PositionsMap × World :=
  match getPortfolioBrokerage w.store pid with
  | some .tradier =>
    match readTradierCredentials w.store pid with
    | none =>
      (.error (.plain "Tradier credentials are required for this portfolio. Connect via Tradier in the UI."), w)
    | some creds =>
      let r1 := resolveTradierAccountId pid creds w
      match r1.1 with
      | .error e => (.error e, r1.2)
      | .ok _accountId =>
        let r2 := getTradierPositionsCall r1.2
        match r2.1 with
        | .error e => (.error e, r2.2)
        | .ok positions => (.ok (buildTradierPositionsMap positions), r2.2)
  | _ =>
    let ri := initializeSchwabClient cfg pid w
    match ri.1 with
    | .error e => (.error e, ri.2)
    | .ok _ =>
      let rh := getAccountHashFromApi cfg pid ri.2
      match rh.1 with
      | .error e => (.error e, rh.2)
      | .ok _hash =>
        let w2 := rh.2
        let out := w2.schwabAccountOutcomes.headD (.error (.plain "getAccountByNumber network failure"))
        let w3 : World := { w2 with schwabAccountOutcomes := w2.schwabAccountOutcomes.tail }
        match out with
        | .ok rawAccount => (.ok (buildSchwabPositionsMap (rawAccount.getD [])), w3)
        | .error e =>
          if isTokenExpired e then
            let rr := refreshTokensIfNeeded pid w3
            match rr.1 with
            | .error e2 => (.error e2, rr.2)
            | .ok _ =>
              match fuel with
              | 0 => (.error (.plain "retry fuel exhausted"), rr.2)
              | fuel' + 1 => getCurrentPositions cfg fuel' pid rr.2
          else
            (.error e, w3)

/-! ## Execution results (types.ts) -/

/-- `TradeExecutionResult`. -/
structure TradeExecutionResult where
  symbol : String
  action : Instruction
  shares : ℚ
  price : ℚ
  success : Bool
  error : Option String := none
  orderId : Option String := none
deriving DecidableEq, Repr

structure SkippedEntry where
  symbol : String
  reason : String
deriving DecidableEq, Repr

/-- `TradeExecutionSummary`. -/
structure TradeExecutionSummary where
  successful : List TradeExecutionResult := []
  failed : List TradeExecutionResult := []
  skipped : List SkippedEntry := []
deriving DecidableEq, Repr

/-- A failure `TradeExecutionResult` echoing the call's arguments. -/
def failRes (symbol : String) (action : Instruction) (shares price : ℚ)
    (error : String) : TradeExecutionResult :=
  { symbol := symbol, action := action, shares := shares, price := price,
    success := false, error := some error }

/-- A success `TradeExecutionResult` echoing the call's arguments. -/
def okRes (symbol : String) (action : Instruction) (shares price : ℚ)
    (orderId : Option String) : TradeExecutionResult :=
  { symbol := symbol, action := action, shares := shares, price := price,
    success := true, orderId := orderId }

/-! ## Order executor (trader.ts `placeBuyOrder` / `placeSellOrder`) -/

/-- Shared body of `placeBuyOrder` and `placeSellOrder` (the two functions are
textually identical up to the instruction/side): reject a non-positive share
count before anything else; dispatch on the stored brokerage. Tradier: trading
flag, credentials, account id resolution and order submission, all failures
caught into a failure result. Schwab (or no binding): trading flag, account
hash (errors here are NOT caught — the call is outside the try), then the
direct POST; a `TOKEN_EXPIRED` auth error triggers refresh + recursive retry
(fuel-bounded), any other error becomes a failure result. -/
def placeOrderCore (cfg : Config) (instr : Instruction) (fuel : Nat) (pid : Nat)
    (symbol : String) (shares price : ℚ) (w : World) :
    Except JsErr TradeExecutionResult × World :=
  if shares ≤ 0 then
    (.ok (failRes symbol instr shares price "Invalid share quantity: must be greater than 0"), w)
  else
    match getPortfolioBrokerage w.store pid with
    | some .tradier =>
      if ¬ cfg.tradierEnableTrading then
        (.ok (failRes symbol instr shares price "Trading is disabled (TRADIER_ENABLE_TRADING=false)"), w)
      else
        match readTradierCredentials w.store pid with
        | none =>
          (.ok (failRes symbol instr shares price "Tradier credentials missing for this portfolio."), w)
        | some creds =>
          let r1 := resolveTradierAccountId pid creds w
          match r1.1 with
          | .error e => (.ok (failRes symbol instr shares price e.message), r1.2)
          | .ok _accountId =>
            let r2 := placeTradierOrder cfg instr symbol shares (some price) (some cfg.tradierOrderType) r1.2
            match r2.1 with
            | .error e => (.ok (failRes symbol instr shares price e.message), r2.2)
            | .ok orderId => (.ok (okRes symbol instr shares price orderId), r2.2)
    | _ =>
      if ¬ cfg.enableTrading then
        (.ok (failRes symbol instr shares price "Trading is disabled (SCHWAB_ENABLE_TRADING=false)"), w)
      else
        let rh := getAccountHashFromApi cfg pid w
        match rh.1 with
        | .error e => (.error e, rh.2)
        | .ok accountNumber =>
          let body := buildSchwabOrderBody cfg.orderType instr symbol shares price
          let rp := placeOrderViaDirectPost pid accountNumber body rh.2
          match rp.1 with
          | .ok resp => (.ok (okRes symbol instr shares price (resp.orderId.map toString)), rp.2)
          | .error e =>
            if isTokenExpired e then
              let rr := refreshTokensIfNeeded pid rp.2
              match rr.1 with
              | .error e2 => (.error e2, rr.2)
              | .ok _ =>
                match fuel with
                | 0 => (.error (.plain "retry fuel exhausted"), rr.2)
                | fuel' + 1 => placeOrderCore cfg instr fuel' pid symbol shares price rr.2
            else
              (.ok (failRes symbol instr shares price e.message), rp.2)

/-- `placeBuyOrder(portfolioId, symbol, shares, price)`. -/
def placeBuyOrder (cfg : Config) (fuel : Nat) (pid : Nat) (symbol : String)
    (shares price : ℚ) (w : World) : Except JsErr TradeExecutionResult × World :=
  placeOrderCore cfg .buy fuel pid symbol shares price w

/-- `placeSellOrder(portfolioId, symbol, shares, price)`. -/
def placeSellOrder (cfg : Config) (fuel : Nat) (pid : Nat) (symbol : String)
    (shares price : ℚ) (w : World) : Except JsErr TradeExecutionResult × World :=
  placeOrderCore cfg .sell fuel pid symbol shares price w

/-! ## Signals and the execution batch (trader.ts `executeTrades`) -/

/-- Element of `ProcessedSignals.enterSignals`: a `Signal` extended with
`shares` and `allocation`. -/
structure EnterSignal where
  symbol : String
  score : ℚ := 0
  rank : Nat := 0
  current_price : ℚ
  shares : ℚ
  allocation : ℚ := 0
deriving DecidableEq, Repr

/-- Element of `ProcessedSignals.exitSignals`: a plain `Signal` (note: no
`shares` field — an exit signal carries no requested share count). -/
structure ExitSignal where
  symbol : String
  score : ℚ := 0
  rank : Nat := 0
  current_price : ℚ
deriving DecidableEq, Repr

structure ProcessedSignals where
  enterSignals : List EnterSignal := []
  exitSignals : List ExitSignal := []
  date : String := ""
deriving DecidableEq, Repr

/-- Rendering of a JS number into a template string; exact for the integral
quantities the code produces (the only values exercised by the claims). -/
def jsNumToString (q : ℚ) : String :=
  if q.den = 1 then toString q.num else toString q

/-- One iteration of the enter-signal loop of `executeTrades`: skip when the
live position map already shows a positive quantity, otherwise place a buy for
the signal's full requested share count at its reference price and append the
result to the successful or failed bucket. -/
def execEnterSignal (cfg : Config) (fuel : Nat) (pid : Nat) (positions : PositionsMap)
    (s : EnterSignal) (summary : TradeExecutionSummary) (w : World) :
    Except JsErr TradeExecutionSummary × World :=
  match mapGet positions s.symbol with
  | some p =>
    if 0 < p.longQuantity then
      (.ok { summary with
        skipped := summary.skipped ++
          [⟨s.symbol, "Already holding " ++ jsNumToString p.longQuantity ++ " shares"⟩] }, w)
    else
      let r := placeBuyOrder cfg fuel pid s.symbol s.shares s.current_price w
      match r.1 with
      | .error e => (.error e, r.2)
      | .ok result =>
        if result.success then
          (.ok { summary with successful := summary.successful ++ [result] }, r.2)
        else
          (.ok { summary with failed := summary.failed ++ [result] }, r.2)
  | none =>
    let r := placeBuyOrder cfg fuel pid s.symbol s.shares s.current_price w
    match r.1 with
    | .error e => (.error e, r.2)
    | .ok result =>
      if result.success then
        (.ok { summary with successful := summary.successful ++ [result] }, r.2)
      else
        (.ok { summary with failed := summary.failed ++ [result] }, r.2)

/-- One iteration of the exit-signal loop of `executeTrades`: skip when no
live position exists or its quantity is zero, otherwise sell exactly the
currently-held `longQuantity` at the signal's reference price. -/
def execExitSignal (cfg : Config) (fuel : Nat) (pid : Nat) (positions : PositionsMap)
    (s : ExitSignal) (summary : TradeExecutionSummary) (w : World) :
    Except JsErr TradeExecutionSummary × World :=
  match mapGet positions s.symbol with
  | none =>
    (.ok { summary with skipped := summary.skipped ++ [⟨s.symbol, "No position to exit"⟩] }, w)
  | some p =>
    if p.longQuantity = 0 then
      (.ok { summary with skipped := summary.skipped ++ [⟨s.symbol, "No position to exit"⟩] }, w)
    else
      let r := placeSellOrder cfg fuel pid s.symbol p.longQuantity s.current_price w
      match r.1 with
      | .error e => (.error e, r.2)
      | .ok result =>
        if result.success then
          (.ok { summary with successful := summary.successful ++ [result] }, r.2)
        else
          (.ok { summary with failed := summary.failed ++ [result] }, r.2)

def execEnterSignals (cfg : Config) (fuel : Nat) (pid : Nat) (positions : PositionsMap) :
    List EnterSignal → TradeExecutionSummary → World →
    Except JsErr TradeExecutionSummary × World
  | [], summary, w => (.ok summary, w)
  | s :: rest, summary, w =>
    let r := execEnterSignal cfg fuel pid positions s summary w
    match r.1 with
    | .error e => (.error e, r.2)
    | .ok summary1 => execEnterSignals cfg fuel pid positions rest summary1 r.2

def execExitSignals (cfg : Config) (fuel : Nat) (pid : Nat) (positions : PositionsMap) :
    List ExitSignal → TradeExecutionSummary → World →
    Except JsErr TradeExecutionSummary × World
  | [], summary, w => (.ok summary, w)
  | s :: rest, summary, w =>
    let r := execExitSignal cfg fuel pid positions s summary w
    match r.1 with
    | .error e => (.error e, r.2)
    | .ok summary1 => execExitSignals cfg fuel pid positions rest summary1 r.2

/-- `executeTrades(portfolioId, signals)`: empty summary when the portfolio's
brokerage has trading disabled or there is no brokerage binding; otherwise
fetch the position snapshot once — a fetch failure is wrapped into a single
synthetic failure entry for symbol "ALL" and the summary is returned with no
orders attempted — then process enter signals and exit signals in input
order against that one snapshot. -/
def executeTrades (cfg : Config) (fuel : Nat) (pid : Nat)
    (signals : ProcessedSignals) (w : World) :
    Except JsErr TradeExecutionSummary × World :=
  let brokerage := getPortfolioBrokerage w.store pid
  let tradingDisabled :=
    (brokerage = some .schwab ∧ cfg.enableTrading = false) ∨
    (brokerage = some .tradier ∧ cfg.tradierEnableTrading = false)
  if brokerage.isSome ∧ tradingDisabled then ((.ok {}), w)
  else if brokerage.isNone then ((.ok {}), w)
  else
    let rp := getCurrentPositions cfg fuel pid w
    match rp.1 with
    | .error e =>
      (.ok { failed := [failRes "ALL" .buy 0 0 ("Failed to fetch positions: " ++ e.message)] }, rp.2)
    | .ok positions =>
      let re := execEnterSignals cfg fuel pid positions signals.enterSignals {} rp.2
      match re.1 with
      | .error e => (.error e, re.2)
      | .ok summary1 =>
        execExitSignals cfg fuel pid positions signals.exitSignals summary1 re.2

/-! ## Connection diagnostics (trader.ts `verifyConnection`) -/

structure VerifyConnectionResult where
  ok : Bool
  message : String
  positionsCount : Option Nat := none
deriving DecidableEq, Repr

/-- `verifyConnection(portfolioId)`: the whole body is inside a try/catch, so
every thrown error is converted to `{ ok: false, message }`; a portfolio with
no brokerage binding yields the fixed no-credentials message; on success the
result carries `positions.size`. The embedding is a total function — the
impossibility of a thrown escape is a fact of the type. -/
def verifyConnection (cfg : Config) (fuel : Nat) (pid : Nat) (w : World) :
    VerifyConnectionResult × World :=
  match getPortfolioBrokerage w.store pid with
  | none =>
    ({ ok := false, message := "No credentials. Link this portfolio via Schwab or Tradier." }, w)
  | some b =>
    let r := getCurrentPositions cfg fuel pid w
    match r.1 with
    | .error e => ({ ok := false, message := e.message }, r.2)
    | .ok positions =>
      ({ ok := true
         message := (if b = .schwab then "Schwab" else "Tradier") ++ " API connected"
         positionsCount := some positions.length }, r.2)

/-! ## Sample configurations and worlds used by witnesses -/

/-- Schwab trading enabled, market orders, Tradier disabled. -/
def cfgA : Config where
  enableTrading := true
  orderType := .market
  tradierEnableTrading := false
  tradierOrderType := .market

/-- The empty credential database. -/
def store0 : Store where
  schwab := fun _ => none
  tradier := fun _ => none

/-- Portfolio 1 bound to Schwab. -/
def store1 : Store where
  schwab := fun p => if p = 1 then some ⟨"at", "rt", some "https://cb", some "123"⟩ else none
  tradier := fun _ => none

/-- A quiescent world over `store1`. -/
def w1q : World where
  store := store1
  clientCache := fun _ => false
  hashCache := fun _ => none

/-- A live position of 5 AAPL shares. -/
def posAAPL5 : Position where
  symbol := "AAPL"
  longQuantity := 5
  shortQuantity := 0

/-- A world whose next refresh succeeds with a new access token only. -/
def w9 : World where
  store := store1
  clientCache := fun p => p = 1
  hashCache := fun p => if p = 1 then some "HASH" else none
  refreshRaws := [.success ⟨"at2", none⟩]

/-- A Schwab world whose next order POST succeeds with order id 777. -/
def wSell : World where
  store := store1
  clientCache := fun p => p = 1
  hashCache := fun p => if p = 1 then some "HASH" else none
  postOutcomes := [.ok ⟨some 777⟩]

/-- A Schwab world whose position fetch fails with a plain network error. -/
def wFail : World where
  store := store1
  clientCache := fun p => p = 1
  hashCache := fun p => if p = 1 then some "HASH" else none
  schwabAccountOutcomes := [.error (.plain "boom")]

/-- A Schwab world whose position fetch returns entries for symbols A, B and a
duplicate A (the duplicate overwrites in the map). -/
def wVerify : World where
  store := store1
  clientCache := fun p => p = 1
  hashCache := fun p => if p = 1 then some "HASH" else none
  schwabAccountOutcomes :=
    [.ok (some [{ symbol := some "A", longQuantity := some 3 },
                { symbol := some "B", longQuantity := some 2 },
                { symbol := some "A", longQuantity := some 4 }])]

/-- A Schwab world whose first order POST is rejected with HTTP 401, whose
token refresh then succeeds (broker omits a new refresh token), and whose
retried POST fails with HTTP 500. -/
def wRetry : World where
  store := store1
  clientCache := fun p => p = 1
  hashCache := fun p => if p = 1 then some "HASH" else none
  postOutcomes := [.httpErr 401 "Unauthorized" none,
                   .httpErr 500 "Internal Server Error" (some "boom")]
  refreshRaws := [.success ⟨"at2", none⟩]

/-! ## Helper lemmas -/

theorem readSchwab_some_fields {s : Store} {pid : Nat} {c : SchwabCredentials}
    (h : readSchwabCredentials s pid = some c) :
    c.accessToken ≠ "" ∧ c.refreshToken ≠ "" := by
  unfold readSchwabCredentials at h
  split at h
  · exact absurd h (by simp)
  · split at h
    · exact absurd h (by simp)
    · rename_i hrow
      cases h
      exact ⟨fun ha => hrow (Or.inl ha), fun hr => hrow (Or.inr hr)⟩

theorem readSchwab_write_self (s : Store) (pid : Nat) (c : SchwabCredentials) :
    readSchwabCredentials (writeSchwabCredentials s pid c) pid =
      if c.accessToken = "" ∨ c.refreshToken = "" then none else some c := by
  simp [readSchwabCredentials, writeSchwabCredentials]

theorem readTradier_write_schwab (s : Store) (pid : Nat) (c : SchwabCredentials) :
    readTradierCredentials (writeSchwabCredentials s pid c) pid = none := by
  simp [readTradierCredentials, writeSchwabCredentials]

theorem readSchwab_write_tradier (s : Store) (pid : Nat) (c : TradierCredentials) :
    readSchwabCredentials (writeTradierCredentials s pid c) pid = none := by
  simp [readSchwabCredentials, writeTradierCredentials]

/-- `refreshTokensIfNeeded` converts the broker's own `TOKEN_EXPIRED` auth
error to a plain re-authentication error, so no error it throws is ever again
a `TOKEN_EXPIRED` auth error. -/
theorem refresh_error_not_tokenExpired (pid : Nat) (w : World) (e : JsErr)
    (h : (refreshTokensIfNeeded pid w).1 = .error e) : isTokenExpired e = false := by
  unfold refreshTokensIfNeeded at h
  split at h
  · simp only [Except.error.injEq] at h
    subst h; rfl
  · dsimp only at h
    cases hraw : w.refreshRaws.headD (.failure (.plain "refresh network failure")) with
    | failure e0 =>
      rw [hraw] at h
      dsimp only at h
      by_cases hexp : isTokenExpired e0 = true
      · rw [if_pos hexp] at h
        simp only [Except.error.injEq] at h
        subst h; rfl
      · rw [if_neg hexp] at h
        simp only [Except.error.injEq] at h
        subst h
        simpa using hexp
    | success tok =>
      rw [hraw] at h
      simp at h

/-- Errors produced by a single `doPost` are HTTP or plain errors, never a
`SchwabAuthError`. -/
theorem doPostResult_not_tokenExpired (o : PostOutcome) (e : JsErr)
    (h : doPostResult o = .error e) : isTokenExpired e = false := by
  cases o with
  | ok b => simp [doPostResult] at h
  | httpErr s st d =>
    simp only [doPostResult, Except.error.injEq] at h
    subst h; rfl
  | netErr m =>
    simp only [doPostResult, Except.error.injEq] at h
    subst h; rfl

theorem doPost_world (body : SchwabOrderBody) (w : World) :
    (doPost body w).2.orderPosts = w.orderPosts ++ [body] ∧
    (doPost body w).2.tradierOrderLog = w.tradierOrderLog ∧
    (doPost body w).2.store = w.store ∧
    (doPost body w).2.refreshCalls = w.refreshCalls :=
  ⟨rfl, rfl, rfl, rfl⟩

theorem refresh_world (pid : Nat) (w : World) :
    (refreshTokensIfNeeded pid w).2.orderPosts = w.orderPosts ∧
    (refreshTokensIfNeeded pid w).2.tradierOrderLog = w.tradierOrderLog ∧
    w.refreshCalls ≤ (refreshTokensIfNeeded pid w).2.refreshCalls ∧
    (refreshTokensIfNeeded pid w).2.refreshCalls ≤ w.refreshCalls + 1 := by
  unfold refreshTokensIfNeeded
  split
  · exact ⟨rfl, rfl, le_refl _, Nat.le_succ _⟩
  · dsimp only
    cases hraw : w.refreshRaws.headD (.failure (.plain "refresh network failure")) with
    | failure e0 =>
      dsimp only
      by_cases hexp : isTokenExpired e0 = true
      · rw [if_pos hexp]
        exact ⟨rfl, rfl, Nat.le_succ _, le_refl _⟩
      · rw [if_neg hexp]
        exact ⟨rfl, rfl, Nat.le_succ _, le_refl _⟩
    | success tok => exact ⟨rfl, rfl, Nat.le_succ _, le_refl _⟩

theorem initClient_world (cfg : Config) (pid : Nat) (w : World) :
    (initializeSchwabClient cfg pid w).2.orderPosts = w.orderPosts ∧
    (initializeSchwabClient cfg pid w).2.tradierOrderLog = w.tradierOrderLog ∧
    (initializeSchwabClient cfg pid w).2.refreshCalls = w.refreshCalls ∧
    (initializeSchwabClient cfg pid w).2.store = w.store := by
  unfold initializeSchwabClient
  split
  · exact ⟨rfl, rfl, rfl, rfl⟩
  · split
    · exact ⟨rfl, rfl, rfl, rfl⟩
    · split
      · exact ⟨rfl, rfl, rfl, rfl⟩
      · exact ⟨rfl, rfl, rfl, rfl⟩

theorem accountHash_world (cfg : Config) (pid : Nat) (w : World) :
    (getAccountHashFromApi cfg pid w).2.orderPosts = w.orderPosts ∧
    (getAccountHashFromApi cfg pid w).2.tradierOrderLog = w.tradierOrderLog ∧
    (getAccountHashFromApi cfg pid w).2.refreshCalls = w.refreshCalls ∧
    (getAccountHashFromApi cfg pid w).2.store = w.store := by
  have hiw := initClient_world cfg pid w
  unfold getAccountHashFromApi
  split
  · exact ⟨rfl, rfl, rfl, rfl⟩
  · dsimp only
    cases hres : (initializeSchwabClient cfg pid w).1 with
    | error e => exact hiw
    | ok u =>
      dsimp only
      cases hraw : (initializeSchwabClient cfg pid w).2.accountNumbersOutcomes.headD
          (.error (.plain "getAccountNumbers network failure")) with
      | error e => exact hiw
      | ok entries =>
        dsimp only
        cases hh : (parseAccountNumbersResponse entries).head? with
        | none => exact hiw
        | some pr =>
          rcases pr with ⟨a, hsh⟩
          dsimp only
          split
          · exact hiw
          · exact hiw

theorem tradierAccountId_world (w : World) :
    (getTradierAccountId w).2.orderPosts = w.orderPosts ∧
    (getTradierAccountId w).2.tradierOrderLog = w.tradierOrderLog ∧
    (getTradierAccountId w).2.refreshCalls = w.refreshCalls := by
  unfold getTradierAccountId
  cases hraw : w.tradierProfileOutcomes.headD (.netErr "fetch failed") with
  | netErr m => exact ⟨rfl, rfl, rfl⟩
  | fail st t => exact ⟨rfl, rfl, rfl⟩
  | ok payload =>
    cases payload with
    | none => exact ⟨rfl, rfl, rfl⟩
    | some accounts =>
      cases accounts with
      | nil => exact ⟨rfl, rfl, rfl⟩
      | cons a0 rest2 =>
        dsimp only
        cases hacc : (((a0 :: rest2).find? fun a =>
            ((a.status.getD "").toLower ≠ "closed" : Bool)).getD a0).account_number.map jsTrim with
        | none => exact ⟨rfl, rfl, rfl⟩
        | some n =>
          dsimp only
          split
          · exact ⟨rfl, rfl, rfl⟩
          · exact ⟨rfl, rfl, rfl⟩

theorem resolveTradier_world (pid : Nat) (creds : TradierCredentials) (w : World) :
    (resolveTradierAccountId pid creds w).2.orderPosts = w.orderPosts ∧
    (resolveTradierAccountId pid creds w).2.tradierOrderLog = w.tradierOrderLog ∧
    (resolveTradierAccountId pid creds w).2.refreshCalls = w.refreshCalls := by
  have hta := tradierAccountId_world w
  unfold resolveTradierAccountId
  cases hacc : creds.accountId.map jsTrim with
  | none =>
    dsimp only
    cases hres : (getTradierAccountId w).1 with
    | error e => exact ⟨hta.1, hta.2.1, hta.2.2⟩
    | ok accountId => exact ⟨hta.1, hta.2.1, hta.2.2⟩
  | some a =>
    dsimp only
    split
    · exact ⟨rfl, rfl, rfl⟩
    · cases hres : (getTradierAccountId w).1 with
      | error e => exact ⟨hta.1, hta.2.1, hta.2.2⟩
      | ok accountId => exact ⟨hta.1, hta.2.1, hta.2.2⟩

theorem tradierPositions_world (w : World) :
    (getTradierPositionsCall w).2.orderPosts = w.orderPosts ∧
    (getTradierPositionsCall w).2.tradierOrderLog = w.tradierOrderLog ∧
    (getTradierPositionsCall w).2.refreshCalls = w.refreshCalls := by
  unfold getTradierPositionsCall
  cases hraw : w.tradierPositionsOutcomes.headD (.netErr "fetch failed") with
  | netErr m => exact ⟨rfl, rfl, rfl⟩
  | fail st t => exact ⟨rfl, rfl, rfl⟩
  | ok resp => exact ⟨rfl, rfl, rfl⟩

theorem doPost_fst (body : SchwabOrderBody) (w : World) :
    (doPost body w).1 = doPostResult (w.postOutcomes.headD (.netErr "fetch failed")) := rfl

/-- Every error propagating out of `placeOrderViaDirectPost` is an HTTP, plain
or non-expired auth error: the function converts or consumes every
`TOKEN_EXPIRED` signal, so the caller's expired-token catch never fires on the
direct-POST path. -/
theorem podp_error_not_tokenExpired (pid : Nat) (acct : String) (body : SchwabOrderBody)
    (w : World) (e : JsErr)
    (h : (placeOrderViaDirectPost pid acct body w).1 = .error e) :
    isTokenExpired e = false := by
  unfold placeOrderViaDirectPost at h
  split at h
  · simp only [Except.error.injEq] at h
    subst h; rfl
  · dsimp only at h
    cases hdp : (doPost body w).1 with
    | ok b => rw [hdp] at h; simp at h
    | error err =>
      rw [hdp] at h
      dsimp only at h
      rw [doPost_fst] at hdp
      by_cases h401 : err.is401 = true
      · rw [if_pos h401] at h
        cases hrf : (refreshTokensIfNeeded pid (doPost body w).2).1 with
        | error e2 =>
          rw [hrf] at h
          simp only [Except.error.injEq] at h
          subst h
          exact refresh_error_not_tokenExpired _ _ _ hrf
        | ok tok =>
          rw [hrf] at h
          dsimp only at h
          cases hrd : readSchwabCredentials
              (refreshTokensIfNeeded pid (doPost body w).2).2.store pid with
          | some c =>
            rw [hrd] at h
            rw [doPost_fst] at h
            exact doPostResult_not_tokenExpired _ _ h
          | none =>
            rw [hrd] at h
            simp only [Except.error.injEq] at h
            subst h
            exact doPostResult_not_tokenExpired _ _ hdp
      · rw [if_neg h401] at h
        simp only [Except.error.injEq] at h
        subst h
        exact doPostResult_not_tokenExpired _ _ hdp

/-- `placeOrderViaDirectPost` POSTs the given order body at most twice (the
original submission plus at most one retry, always with the SAME body), and
never touches the Tradier order log. -/
theorem podp_world (pid : Nat) (acct : String) (body : SchwabOrderBody) (w : World) :
    (∃ n ≤ 2, (placeOrderViaDirectPost pid acct body w).2.orderPosts
        = w.orderPosts ++ List.replicate n body) ∧
    (placeOrderViaDirectPost pid acct body w).2.tradierOrderLog = w.tradierOrderLog := by
  have hdw := doPost_world body w
  unfold placeOrderViaDirectPost
  split
  · exact ⟨⟨0, by norm_num, by simp⟩, rfl⟩
  · dsimp only
    cases hdp : (doPost body w).1 with
    | ok b =>
      exact ⟨⟨1, by norm_num, by simpa using hdw.1⟩, hdw.2.1⟩
    | error err =>
      dsimp only
      by_cases h401 : err.is401 = true
      · rw [if_pos h401]
        have hrw := refresh_world pid (doPost body w).2
        cases hrf : (refreshTokensIfNeeded pid (doPost body w).2).1 with
        | error e2 =>
          refine ⟨⟨1, by norm_num, ?_⟩, ?_⟩
          · dsimp only
            rw [hrw.1, hdw.1]
            simp
          · dsimp only
            rw [hrw.2.1, hdw.2.1]
        | ok tok =>
          dsimp only
          cases hrd : readSchwabCredentials
              (refreshTokensIfNeeded pid (doPost body w).2).2.store pid with
          | some c =>
            have hdw2 := doPost_world body (refreshTokensIfNeeded pid (doPost body w).2).2
            refine ⟨⟨2, by norm_num, ?_⟩, ?_⟩
            · rw [hdw2.1, hrw.1, hdw.1]
              simp [List.replicate]
            · rw [hdw2.2.1, hrw.2.1, hdw.2.1]
          | none =>
            refine ⟨⟨1, by norm_num, ?_⟩, ?_⟩
            · dsimp only
              rw [hrw.1, hdw.1]
              simp
            · dsimp only
              rw [hrw.2.1, hdw.2.1]
      · rw [if_neg h401]
        exact ⟨⟨1, by norm_num, by simpa using hdw.1⟩, hdw.2.1⟩

/-- `placeTradierOrder` never POSTs a Schwab order and appends at most one
entry — the parameters built from its arguments — to the Tradier order log. -/
theorem placeTradierOrder_world (cfg : Config) (side : Instruction) (symbol : String)
    (qty : ℚ) (price : Option ℚ) (orderType : Option TradierOrderType) (w : World) :
    (placeTradierOrder cfg side symbol qty price orderType w).2.orderPosts = w.orderPosts ∧
    (∃ m ≤ 1, (placeTradierOrder cfg side symbol qty price orderType w).2.tradierOrderLog
        = w.tradierOrderLog ++ List.replicate m
            (buildTradierOrderParams (orderType.getD cfg.tradierOrderType) side symbol qty price)) ∧
    (placeTradierOrder cfg side symbol qty price orderType w).2.refreshCalls = w.refreshCalls := by
  unfold placeTradierOrder
  split
  · exact ⟨rfl, ⟨0, by norm_num, by simp⟩, rfl⟩
  · dsimp only
    cases hraw : w.tradierOrderOutcomes.headD (.netErr "fetch failed") with
    | netErr m => exact ⟨rfl, ⟨1, by norm_num, by simp [List.replicate]⟩, rfl⟩
    | fail st t => exact ⟨rfl, ⟨1, by norm_num, by simp [List.replicate]⟩, rfl⟩
    | ok resp => exact ⟨rfl, ⟨1, by norm_num, by simp [List.replicate]⟩, rfl⟩

/-- Whenever `placeOrderCore` returns a result (rather than throwing), that
result echoes the call's symbol, instruction, share count and price. -/
theorem placeOrderCore_ok_echo (cfg : Config) (instr : Instruction) (fuel pid : Nat)
    (symbol : String) (shares price : ℚ) (w : World) (r : TradeExecutionResult)
    (h : (placeOrderCore cfg instr fuel pid symbol shares price w).1 = .ok r) :
    r.symbol = symbol ∧ r.action = instr ∧ r.shares = shares ∧ r.price = price := by
  unfold placeOrderCore at h
  split at h
  · simp only [Except.ok.injEq] at h
    subst h; exact ⟨rfl, rfl, rfl, rfl⟩
  · split at h
    · -- tradier branch
      split at h
      · simp only [Except.ok.injEq] at h
        subst h; exact ⟨rfl, rfl, rfl, rfl⟩
      · split at h
        · simp only [Except.ok.injEq] at h
          subst h; exact ⟨rfl, rfl, rfl, rfl⟩
        · dsimp only at h
          rename_i creds heq
          cases hr1 : (resolveTradierAccountId pid creds w).1 with
          | error e =>
            rw [hr1] at h
            simp only [Except.ok.injEq] at h
            subst h; exact ⟨rfl, rfl, rfl, rfl⟩
          | ok accountId =>
            rw [hr1] at h
            dsimp only at h
            cases hr2 : (placeTradierOrder cfg instr symbol shares (some price)
                (some cfg.tradierOrderType) (resolveTradierAccountId pid creds w).2).1 with
            | error e =>
              rw [hr2] at h
              simp only [Except.ok.injEq] at h
              subst h; exact ⟨rfl, rfl, rfl, rfl⟩
            | ok orderId =>
              rw [hr2] at h
              simp only [Except.ok.injEq] at h
              subst h; exact ⟨rfl, rfl, rfl, rfl⟩
    · -- schwab / unbound branch
      split at h
      · simp only [Except.ok.injEq] at h
        subst h; exact ⟨rfl, rfl, rfl, rfl⟩
      · dsimp only at h
        cases hrh : (getAccountHashFromApi cfg pid w).1 with
        | error e => rw [hrh] at h; simp at h
        | ok accountNumber =>
          rw [hrh] at h
          dsimp only at h
          cases hpp : (placeOrderViaDirectPost pid accountNumber
              (buildSchwabOrderBody cfg.orderType instr symbol shares price)
              (getAccountHashFromApi cfg pid w).2).1 with
          | ok resp =>
            rw [hpp] at h
            simp only [Except.ok.injEq] at h
            subst h; exact ⟨rfl, rfl, rfl, rfl⟩
          | error e =>
            rw [hpp] at h
            dsimp only at h
            have hne := podp_error_not_tokenExpired _ _ _ _ _ hpp
            rw [hne] at h
            simp only [Bool.false_eq_true, if_false] at h
            simp only [Except.ok.injEq] at h
            subst h; exact ⟨rfl, rfl, rfl, rfl⟩

/-- `placeOrderCore` submits at most two Schwab order POSTs — all carrying the
order body built from its own arguments — and at most one Tradier order, built
from its own arguments with the configured Tradier order type. -/
theorem placeOrderCore_posts (cfg : Config) (instr : Instruction) (fuel pid : Nat)
    (symbol : String) (shares price : ℚ) (w : World) :
    (∃ n ≤ 2, (placeOrderCore cfg instr fuel pid symbol shares price w).2.orderPosts
        = w.orderPosts ++ List.replicate n (buildSchwabOrderBody cfg.orderType instr symbol shares price)) ∧
    (∃ m ≤ 1, (placeOrderCore cfg instr fuel pid symbol shares price w).2.tradierOrderLog
        = w.tradierOrderLog ++ List.replicate m
            (buildTradierOrderParams cfg.tradierOrderType instr symbol shares (some price))) := by
  unfold placeOrderCore
  split
  · exact ⟨⟨0, by norm_num, by simp⟩, ⟨0, by norm_num, by simp⟩⟩
  · split
    · -- tradier branch
      split
      · exact ⟨⟨0, by norm_num, by simp⟩, ⟨0, by norm_num, by simp⟩⟩
      · split
        · exact ⟨⟨0, by norm_num, by simp⟩, ⟨0, by norm_num, by simp⟩⟩
        · rename_i creds heq
          dsimp only
          have hrv := resolveTradier_world pid creds w
          cases hr1 : (resolveTradierAccountId pid creds w).1 with
          | error e =>
            exact ⟨⟨0, by norm_num, by simp [hrv.1]⟩, ⟨0, by norm_num, by simp [hrv.2.1]⟩⟩
          | ok accountId =>
            dsimp only
            have hpt := placeTradierOrder_world cfg instr symbol shares (some price)
              (some cfg.tradierOrderType) (resolveTradierAccountId pid creds w).2
            obtain ⟨hpt1, ⟨m, hm, hmEq⟩, hpt3⟩ := hpt
            cases hr2 : (placeTradierOrder cfg instr symbol shares (some price)
                (some cfg.tradierOrderType) (resolveTradierAccountId pid creds w).2).1 with
            | error e =>
              refine ⟨⟨0, by norm_num, by simp [hpt1, hrv.1]⟩, ⟨m, hm, ?_⟩⟩
              rw [hmEq, hrv.2.1]
              simp [Option.getD]
            | ok orderId =>
              refine ⟨⟨0, by norm_num, by simp [hpt1, hrv.1]⟩, ⟨m, hm, ?_⟩⟩
              rw [hmEq, hrv.2.1]
              simp [Option.getD]
    · -- schwab / unbound branch
      split
      · exact ⟨⟨0, by norm_num, by simp⟩, ⟨0, by norm_num, by simp⟩⟩
      · dsimp only
        have hga := accountHash_world cfg pid w
        cases hrh : (getAccountHashFromApi cfg pid w).1 with
        | error e =>
          exact ⟨⟨0, by norm_num, by simp [hga.1]⟩, ⟨0, by norm_num, by simp [hga.2.1]⟩⟩
        | ok accountNumber =>
          dsimp only
          have hpw := podp_world pid accountNumber
            (buildSchwabOrderBody cfg.orderType instr symbol shares price)
            (getAccountHashFromApi cfg pid w).2
          obtain ⟨⟨n, hn, hnEq⟩, hpw2⟩ := hpw
          cases hpp : (placeOrderViaDirectPost pid accountNumber
              (buildSchwabOrderBody cfg.orderType instr symbol shares price)
              (getAccountHashFromApi cfg pid w).2).1 with
          | ok resp =>
            refine ⟨⟨n, hn, ?_⟩, ⟨0, by norm_num, ?_⟩⟩
            · rw [hnEq, hga.1]
            · rw [hpw2, hga.2.1]
              simp
          | error e =>
            dsimp only
            have hne := podp_error_not_tokenExpired _ _ _ _ _ hpp
            rw [hne]
            simp only [Bool.false_eq_true, if_false]
            refine ⟨⟨n, hn, ?_⟩, ⟨0, by norm_num, ?_⟩⟩
            · rw [hnEq, hga.1]
            · rw [hpw2, hga.2.1]
              simp

/-- `getCurrentPositions` never submits an order on any broker: the Schwab
order-POST log and the Tradier order log are untouched, whatever the oracle
outcomes and however many refresh-and-retry rounds happen. -/
theorem getCurrentPositions_world (cfg : Config) :
    ∀ (fuel pid : Nat) (w : World),
      (getCurrentPositions cfg fuel pid w).2.orderPosts = w.orderPosts ∧
      (getCurrentPositions cfg fuel pid w).2.tradierOrderLog = w.tradierOrderLog := by
  intro fuel
  induction fuel with
  | zero =>
    intro pid w
    unfold getCurrentPositions
    split
    · split
      · exact ⟨rfl, rfl⟩
      · rename_i creds heq
        dsimp only
        have hrv := resolveTradier_world pid creds w
        cases hr1 : (resolveTradierAccountId pid creds w).1 with
        | error e => exact ⟨hrv.1, hrv.2.1⟩
        | ok accountId =>
          dsimp only
          have htp := tradierPositions_world (resolveTradierAccountId pid creds w).2
          cases hr2 : (getTradierPositionsCall (resolveTradierAccountId pid creds w).2).1 with
          | error e => exact ⟨htp.1.trans hrv.1, htp.2.1.trans hrv.2.1⟩
          | ok positions => exact ⟨htp.1.trans hrv.1, htp.2.1.trans hrv.2.1⟩
    · dsimp only
      have hic := initClient_world cfg pid w
      cases hri : (initializeSchwabClient cfg pid w).1 with
      | error e => exact ⟨hic.1, hic.2.1⟩
      | ok u =>
        dsimp only
        have hga := accountHash_world cfg pid (initializeSchwabClient cfg pid w).2
        cases hrh : (getAccountHashFromApi cfg pid (initializeSchwabClient cfg pid w).2).1 with
        | error e => exact ⟨hga.1.trans hic.1, hga.2.1.trans hic.2.1⟩
        | ok hsh =>
          dsimp only
          cases hout : (getAccountHashFromApi cfg pid
              (initializeSchwabClient cfg pid w).2).2.schwabAccountOutcomes.headD
              (.error (.plain "getAccountByNumber network failure")) with
          | ok rawAccount => exact ⟨hga.1.trans hic.1, hga.2.1.trans hic.2.1⟩
          | error e =>
            dsimp only
            by_cases hexp : isTokenExpired e = true
            · rw [if_pos hexp]
              have hrw := refresh_world pid
                { (getAccountHashFromApi cfg pid (initializeSchwabClient cfg pid w).2).2 with
                  schwabAccountOutcomes := (getAccountHashFromApi cfg pid
                    (initializeSchwabClient cfg pid w).2).2.schwabAccountOutcomes.tail }
              cases hrr : (refreshTokensIfNeeded pid
                  { (getAccountHashFromApi cfg pid (initializeSchwabClient cfg pid w).2).2 with
                    schwabAccountOutcomes := (getAccountHashFromApi cfg pid
                      (initializeSchwabClient cfg pid w).2).2.schwabAccountOutcomes.tail }).1 with
              | error e2 =>
                refine ⟨?_, ?_⟩
                · exact (hrw.1.trans (hga.1.trans hic.1))
                · exact (hrw.2.1.trans (hga.2.1.trans hic.2.1))
              | ok tok =>
                refine ⟨?_, ?_⟩
                · exact (hrw.1.trans (hga.1.trans hic.1))
                · exact (hrw.2.1.trans (hga.2.1.trans hic.2.1))
            · rw [if_neg hexp]
              exact ⟨hga.1.trans hic.1, hga.2.1.trans hic.2.1⟩
  | succ f ih =>
    intro pid w
    unfold getCurrentPositions
    split
    · split
      · exact ⟨rfl, rfl⟩
      · rename_i creds heq
        dsimp only
        have hrv := resolveTradier_world pid creds w
        cases hr1 : (resolveTradierAccountId pid creds w).1 with
        | error e => exact ⟨hrv.1, hrv.2.1⟩
        | ok accountId =>
          dsimp only
          have htp := tradierPositions_world (resolveTradierAccountId pid creds w).2
          cases hr2 : (getTradierPositionsCall (resolveTradierAccountId pid creds w).2).1 with
          | error e => exact ⟨htp.1.trans hrv.1, htp.2.1.trans hrv.2.1⟩
          | ok positions => exact ⟨htp.1.trans hrv.1, htp.2.1.trans hrv.2.1⟩
    · dsimp only
      have hic := initClient_world cfg pid w
      cases hri : (initializeSchwabClient cfg pid w).1 with
      | error e => exact ⟨hic.1, hic.2.1⟩
      | ok u =>
        dsimp only
        have hga := accountHash_world cfg pid (initializeSchwabClient cfg pid w).2
        cases hrh : (getAccountHashFromApi cfg pid (initializeSchwabClient cfg pid w).2).1 with
        | error e => exact ⟨hga.1.trans hic.1, hga.2.1.trans hic.2.1⟩
        | ok hsh =>
          dsimp only
          cases hout : (getAccountHashFromApi cfg pid
              (initializeSchwabClient cfg pid w).2).2.schwabAccountOutcomes.headD
              (.error (.plain "getAccountByNumber network failure")) with
          | ok rawAccount => exact ⟨hga.1.trans hic.1, hga.2.1.trans hic.2.1⟩
          | error e =>
            dsimp only
            by_cases hexp : isTokenExpired e = true
            · rw [if_pos hexp]
              have hrw := refresh_world pid
                { (getAccountHashFromApi cfg pid (initializeSchwabClient cfg pid w).2).2 with
                  schwabAccountOutcomes := (getAccountHashFromApi cfg pid
                    (initializeSchwabClient cfg pid w).2).2.schwabAccountOutcomes.tail }
              cases hrr : (refreshTokensIfNeeded pid
                  { (getAccountHashFromApi cfg pid (initializeSchwabClient cfg pid w).2).2 with
                    schwabAccountOutcomes := (getAccountHashFromApi cfg pid
                      (initializeSchwabClient cfg pid w).2).2.schwabAccountOutcomes.tail }).1 with
              | error e2 =>
                refine ⟨?_, ?_⟩
                · exact (hrw.1.trans (hga.1.trans hic.1))
                · exact (hrw.2.1.trans (hga.2.1.trans hic.2.1))
              | ok tok =>
                have hihw := ih pid (refreshTokensIfNeeded pid
                  { (getAccountHashFromApi cfg pid (initializeSchwabClient cfg pid w).2).2 with
                    schwabAccountOutcomes := (getAccountHashFromApi cfg pid
                      (initializeSchwabClient cfg pid w).2).2.schwabAccountOutcomes.tail }).2
                refine ⟨?_, ?_⟩
                · exact hihw.1.trans (hrw.1.trans (hga.1.trans hic.1))
                · exact hihw.2.trans (hrw.2.1.trans (hga.2.1.trans hic.2.1))
            · rw [if_neg hexp]
              exact ⟨hga.1.trans hic.1, hga.2.1.trans hic.2.1⟩

/-! ## C2 -/

/-- C2: writing a Schwab credential for a portfolio deletes any Tradier
credential for it and vice versa, so after either write the other brokerage's
credential reads back as null and `getPortfolioBrokerage` can never report the
other brokerage — the binding is exclusive and overwritten, never merged. -/
theorem c2_broker_binding_exclusive :
    ∀ (s : Store) (pid : Nat) (cs : SchwabCredentials) (ct : TradierCredentials),
      readTradierCredentials (writeSchwabCredentials s pid cs) pid = none ∧
      readSchwabCredentials (writeTradierCredentials s pid ct) pid = none ∧
      getPortfolioBrokerage (writeSchwabCredentials s pid cs) pid ≠ some .tradier ∧
      getPortfolioBrokerage (writeTradierCredentials s pid ct) pid ≠ some .schwab := by
  intro s pid cs ct
  refine ⟨readTradier_write_schwab s pid cs, readSchwab_write_tradier s pid ct, ?_, ?_⟩
  · unfold getPortfolioBrokerage
    rw [readTradier_write_schwab s pid cs]
    by_cases h : (readSchwabCredentials (writeSchwabCredentials s pid cs) pid).isSome <;>
      simp [h]
  · unfold getPortfolioBrokerage
    rw [readSchwab_write_tradier s pid ct]
    by_cases h : (readTradierCredentials (writeTradierCredentials s pid ct) pid).isSome <;>
      simp [h]

/-! ## C6 -/

/-- C6: a call to `placeBuyOrder` or `placeSellOrder` with a non-positive
share count returns an immediate failure result whose error message is
"Invalid share quantity: must be greater than 0" (hence contains "Invalid
share quantity"), with the world unchanged — in particular zero network calls
to any brokerage. -/
theorem c6_nonpositive_shares_rejected :
    ∀ (cfg : Config) (fuel pid : Nat) (symbol : String) (shares price : ℚ) (w : World),
      shares ≤ 0 →
      placeBuyOrder cfg fuel pid symbol shares price w =
        (.ok (failRes symbol .buy shares price "Invalid share quantity: must be greater than 0"), w) ∧
      placeSellOrder cfg fuel pid symbol shares price w =
        (.ok (failRes symbol .sell shares price "Invalid share quantity: must be greater than 0"), w) := by
  intro cfg fuel pid symbol shares price w h
  constructor
  · unfold placeBuyOrder placeOrderCore
    rw [if_pos h]
  · unfold placeSellOrder placeOrderCore
    rw [if_pos h]

/-- Witness for C6 at a concrete call with zero shares. -/
theorem c6_witness :
    placeBuyOrder cfgA 1 1 "AAPL" 0 (151 / 2) w1q =
      (.ok (failRes "AAPL" .buy 0 (151 / 2) "Invalid share quantity: must be greater than 0"), w1q) ∧
    placeSellOrder cfgA 1 1 "AAPL" 0 (151 / 2) w1q =
      (.ok (failRes "AAPL" .sell 0 (151 / 2) "Invalid share quantity: must be greater than 0"), w1q) :=
  c6_nonpositive_shares_rejected cfgA 1 1 "AAPL" 0 (151 / 2) w1q (by norm_num)

/-! ## C7 -/

/-- C7 counterexample: a Tradier positions response whose single entry has the
fractional quantity 1/2 passes the `qty > 0` filter but floors to 0, so the
returned list contains a position whose `longQuantity` is NOT positive —
refuting the claim that every returned position has a positive integer
`longQuantity`. -/
theorem c7_counterexample :
    ∃ p ∈ parseTradierPositions
        ⟨some (.single { symbol := some "ABC", quantity := some (1 / 2) })⟩,
      ¬ 0 < p.longQuantity := by
  have htrim : jsTrim "ABC" = "ABC" := by decide
  have hlist : parseTradierPositions
      ⟨some (.single { symbol := some "ABC", quantity := some (1 / 2) })⟩ = [⟨"ABC", 0⟩] := by
    norm_num [parseTradierPositions, List.filterMap_cons, htrim, jsFloor]
    rw [if_neg (by decide : ¬ ("ABC" = ""))]
  rw [hlist]
  exact ⟨⟨"ABC", 0⟩, List.mem_singleton.mpr rfl, by decide⟩

/-- C7 (amended): `getTradierPositions` accepts a single object or a list
(the two parse identically), excludes entries with non-positive or unparseable
quantities, and floors fractional quantities; hence every returned position
has a NON-NEGATIVE integer `longQuantity`, positive whenever the raw quantity
is at least 1 (a raw quantity strictly between 0 and 1 floors to 0). -/
theorem c7_amended_positions_floor :
    (∀ i : TradierPositionItem,
      parseTradierPositions ⟨some (.single i)⟩ = parseTradierPositions ⟨some (.many [i])⟩) ∧
    (∀ (resp : TradierPositionsResponse) (p : TradierPosition),
      p ∈ parseTradierPositions resp →
        0 ≤ p.longQuantity ∧ p.symbol ≠ "" ∧
        ∃ q : ℚ, 0 < q ∧ p.longQuantity = Int.floor q ∧ (1 ≤ q → 0 < p.longQuantity)) := by
  constructor
  · intro i
    rfl
  · intro resp p hp
    unfold parseTradierPositions at hp
    rcases hresp : resp.positions with _ | node
    · rw [hresp] at hp; simp at hp
    · rw [hresp] at hp
      rw [List.mem_filterMap] at hp
      obtain ⟨item, _hmem, hitem⟩ := hp
      rcases hsym : item.symbol.map jsTrim with _ | s <;> rw [hsym] at hitem
      · rcases item.quantity with _ | q <;> simp at hitem
      · rcases hq : item.quantity with _ | q <;> rw [hq] at hitem
        · simp at hitem
        · dsimp only at hitem
          by_cases hcond : s ≠ "" ∧ 0 < q
          · rw [if_pos hcond] at hitem
            cases hitem
            dsimp only
            rw [jsFloor_eq_floor]
            refine ⟨Int.floor_nonneg.mpr (le_of_lt hcond.2), hcond.1, q, hcond.2, rfl, ?_⟩
            intro h1
            have : (1 : ℤ) ≤ Int.floor q := Int.le_floor.mpr (by exact_mod_cast h1)
            omega
          · rw [if_neg hcond] at hitem
            exact absurd hitem (by simp)

/-- Witness for C7's amended theorem at a concrete response with quantity
7/2, floored to the positive integer 3. -/
theorem c7_witness :
    (0 : ℤ) ≤ 3 ∧ "XYZ" ≠ "" ∧
      ∃ q : ℚ, 0 < q ∧ (3 : ℤ) = Int.floor q ∧ (1 ≤ q → (0 : ℤ) < 3) := by
  have htrim : jsTrim "XYZ" = "XYZ" := by decide
  have hmem : (⟨"XYZ", 3⟩ : TradierPosition) ∈ parseTradierPositions
      ⟨some (.single { symbol := some "XYZ", quantity := some (7 / 2) })⟩ := by
    have hlist : parseTradierPositions
        ⟨some (.single { symbol := some "XYZ", quantity := some (7 / 2) })⟩
        = [⟨"XYZ", 3⟩] := by
      norm_num [parseTradierPositions, List.filterMap_cons, htrim, jsFloor]
      rw [if_neg (by decide : ¬ ("XYZ" = ""))]
    rw [hlist]
    exact List.mem_singleton.mpr rfl
  exact c7_amended_positions_floor.2
    ⟨some (.single { symbol := some "XYZ", quantity := some (7 / 2) })⟩ ⟨"XYZ", 3⟩ hmem

/-! ## C8 -/

/-- C8 counterexample: on the Tradier order-construction path a limit order's
price is attached as `price.toFixed(2)`, not verbatim: the reference price
617/500 (= 1.234) is attached as 123/100 (= 1.23). -/
theorem c8_counterexample :
    (buildTradierOrderParams .limit .buy "ABC" 3 (some (617 / 500))).price = some (123 / 100) ∧
    (123 / 100 : ℚ) ≠ 617 / 500 := by
  constructor
  · have hfl : jsFloor ((1239 : ℚ) / 10) = 123 := by
      rw [jsFloor_eq_floor, Int.floor_eq_iff]
      norm_num
    norm_num [buildTradierOrderParams, toFixed2, hfl]
  · norm_num

/-- C8 (amended): on the Schwab path the configured limit order attaches the
reference price verbatim and a market order attaches none; on the Tradier path
a market order attaches no price and a limit order attaches the price rounded
to two decimal places (`toFixed(2)`), which equals the reference price exactly
when that price is an integer multiple of 1/100. -/
theorem c8_amended_limit_price :
    (∀ (ot : SchwabOrderType) (instr : Instruction) (sym : String) (shares price : ℚ),
      (buildSchwabOrderBody ot instr sym shares price).price =
        if ot = .limit then some price else none) ∧
    (∀ (side : Instruction) (sym : String) (qty : ℚ) (price : Option ℚ),
      (buildTradierOrderParams .market side sym qty price).price = none) ∧
    (∀ (side : Instruction) (sym : String) (qty p : ℚ),
      (buildTradierOrderParams .limit side sym qty (some p)).price = some (toFixed2 p)) ∧
    (∀ p : ℚ, (∃ k : ℤ, p * 100 = k) → toFixed2 p = p) := by
  refine ⟨fun _ _ _ _ _ => rfl, fun side sym qty price => ?_, fun _ _ _ _ => rfl, ?_⟩
  · cases price <;> rfl
  · rintro p ⟨k, hk⟩
    unfold toFixed2
    rw [jsFloor_eq_floor, hk]
    rw [show ((k : ℚ) + 1 / 2) = (1 : ℚ) / 2 + (k : ℚ) by ring]
    rw [Int.floor_add_int]
    have h12 : Int.floor ((1 : ℚ) / 2) = 0 := by
      rw [Int.floor_eq_iff] <;> norm_num
    rw [h12]
    push_cast
    rw [zero_add]
    field_simp
    linarith [hk]

/-- Witness for C8's amended theorem: a Schwab limit order at price 3/2
carries it verbatim, and Tradier rounding is exact at 3/2. -/
theorem c8_witness :
    (buildSchwabOrderBody .limit .buy "AAPL" 10 (3 / 2)).price =
      (if SchwabOrderType.limit = .limit then some ((3 : ℚ) / 2) else none) ∧
    toFixed2 (3 / 2) = 3 / 2 :=
  ⟨c8_amended_limit_price.1 .limit .buy "AAPL" 10 (3 / 2),
   c8_amended_limit_price.2.2.2 (3 / 2) ⟨150, by norm_num⟩⟩

/-! ## C5 -/

/-- C5: a buy-intent signal whose symbol appears in the live position map with
positive `longQuantity` results in exactly a skip entry whose reason carries
the held quantity, with the world untouched — so no `placeOrder` call and no
network activity of any kind happens for that symbol. -/
theorem c5_buy_skipped_when_holding :
    ∀ (cfg : Config) (fuel pid : Nat) (positions : PositionsMap) (s : EnterSignal)
      (summary : TradeExecutionSummary) (w : World) (p : Position),
      mapGet positions s.symbol = some p →
      0 < p.longQuantity →
      execEnterSignal cfg fuel pid positions s summary w =
        (.ok { summary with
          skipped := summary.skipped ++
            [⟨s.symbol, "Already holding " ++ jsNumToString p.longQuantity ++ " shares"⟩] }, w) := by
  intro cfg fuel pid positions s summary w p hget hpos
  unfold execEnterSignal
  rw [hget]
  dsimp only
  rw [if_pos hpos]

/-- Witness for C5: a concrete buy signal against a snapshot holding 5 shares
is skipped with reason "Already holding 5 shares" and the world untouched. -/
theorem c5_witness :
    execEnterSignal cfgA 1 1 [("AAPL", posAAPL5)]
        { symbol := "AAPL", current_price := 150, shares := 14 } {} w1q =
      (.ok { skipped := [⟨"AAPL", "Already holding 5 shares"⟩] }, w1q) := by
  have hget : mapGet [("AAPL", posAAPL5)] "AAPL" = some posAAPL5 := by
    simp [mapGet]
  have h := c5_buy_skipped_when_holding cfgA 1 1 [("AAPL", posAAPL5)]
    { symbol := "AAPL", current_price := 150, shares := 14 } {} w1q posAAPL5
    hget (by norm_num [posAAPL5])
  rw [h]
  have hs : jsNumToString posAAPL5.longQuantity = "5" := by
    norm_num [jsNumToString, posAAPL5]
    rfl
  rw [hs]
  rfl

/-! ## C9 -/

/-- C9: a successful Schwab token refresh persists the new tokens for the
portfolio — the refresh token falling back to the previously stored value when
the broker omits one — leaves the stored redirect URI and account number
unchanged, evicts both the cached client and the cached account hash for the
portfolio, and counts exactly one refresh call. -/
theorem c9_refresh_persists_and_evicts :
    ∀ (pid : Nat) (w : World) (cur : SchwabCredentials) (tok : TokenData)
      (rest : List RefreshRaw),
      readSchwabCredentials w.store pid = some cur →
      w.refreshRaws = RefreshRaw.success tok :: rest →
      (refreshTokensIfNeeded pid w).1 = .ok tok ∧
      (refreshTokensIfNeeded pid w).2.store.schwab pid =
        some { accessToken := tok.accessToken
               refreshToken := tok.refreshToken.getD cur.refreshToken
               redirectUri := cur.redirectUri
               accountNumber := cur.accountNumber } ∧
      (refreshTokensIfNeeded pid w).2.clientCache pid = false ∧
      (refreshTokensIfNeeded pid w).2.hashCache pid = none ∧
      (refreshTokensIfNeeded pid w).2.refreshCalls = w.refreshCalls + 1 := by
  intro pid w cur tok rest hcred hraws
  cases htok : tok.refreshToken with
  | none =>
    simp [refreshTokensIfNeeded, hcred, hraws, writeSchwabCredentials,
      Option.orElse, htok]
  | some rt =>
    simp [refreshTokensIfNeeded, hcred, hraws, writeSchwabCredentials,
      Option.orElse, htok]

/-- Witness for C9 at a concrete world: refresh succeeds with a new access
token and no new refresh token; the stored row keeps the old refresh token and
the other fields, and the caches for portfolio 1 are evicted. -/
theorem c9_witness :
    (refreshTokensIfNeeded 1 w9).1 = .ok ⟨"at2", none⟩ ∧
    (refreshTokensIfNeeded 1 w9).2.store.schwab 1 =
      some { accessToken := "at2", refreshToken := "rt", redirectUri := some "https://cb",
             accountNumber := some "123" } ∧
    (refreshTokensIfNeeded 1 w9).2.clientCache 1 = false ∧
    (refreshTokensIfNeeded 1 w9).2.hashCache 1 = none ∧
    (refreshTokensIfNeeded 1 w9).2.refreshCalls = w9.refreshCalls + 1 := by
  have h := c9_refresh_persists_and_evicts 1 w9 ⟨"at", "rt", some "https://cb", some "123"⟩
    ⟨"at2", none⟩ [] (by decide) rfl
  exact h


/-! ## C3 -/

/-- C3: a sell-intent signal whose symbol has a live position with nonzero
`longQuantity` sells exactly the currently-held quantity: the iteration is
precisely a `placeSellOrder` call at the held `longQuantity` (the signal
carries no share count of its own that could be used instead); the recorded
result echoes that quantity, and every Schwab order body and Tradier order
actually submitted on the network during the call carries that quantity. -/
theorem c3_sell_uses_held_quantity :
    ∀ (cfg : Config) (fuel pid : Nat) (positions : PositionsMap) (s : ExitSignal)
      (summary : TradeExecutionSummary) (w : World) (p : Position),
      mapGet positions s.symbol = some p →
      p.longQuantity ≠ 0 →
      ((execExitSignal cfg fuel pid positions s summary w).2
        = (placeSellOrder cfg fuel pid s.symbol p.longQuantity s.current_price w).2) ∧
      (∀ r, (placeSellOrder cfg fuel pid s.symbol p.longQuantity s.current_price w).1 = .ok r →
        (execExitSignal cfg fuel pid positions s summary w).1 =
          .ok (if r.success then { summary with successful := summary.successful ++ [r] }
               else { summary with failed := summary.failed ++ [r] }) ∧
        r.shares = p.longQuantity ∧ r.symbol = s.symbol ∧ r.action = .sell) ∧
      (∃ n ≤ 2,
        (placeSellOrder cfg fuel pid s.symbol p.longQuantity s.current_price w).2.orderPosts
          = w.orderPosts ++ List.replicate n
              (buildSchwabOrderBody cfg.orderType .sell s.symbol p.longQuantity s.current_price)) ∧
      (∃ m ≤ 1,
        (placeSellOrder cfg fuel pid s.symbol p.longQuantity s.current_price w).2.tradierOrderLog
          = w.tradierOrderLog ++ List.replicate m
              (buildTradierOrderParams cfg.tradierOrderType .sell s.symbol p.longQuantity
                (some s.current_price))) := by
  intro cfg fuel pid positions s summary w p hget hne
  have hposts := placeOrderCore_posts cfg .sell fuel pid s.symbol p.longQuantity s.current_price w
  refine ⟨?_, ?_, hposts.1, hposts.2⟩
  · unfold execExitSignal
    rw [hget]
    dsimp only
    rw [if_neg hne]
    cases hr : (placeSellOrder cfg fuel pid s.symbol p.longQuantity s.current_price w).1 with
    | error e => rfl
    | ok result =>
      dsimp only
      split
      · rfl
      · rfl
  · intro r hok
    have hecho := placeOrderCore_ok_echo cfg .sell fuel pid s.symbol p.longQuantity
      s.current_price w r hok
    refine ⟨?_, hecho.2.2.1, hecho.1, hecho.2.1⟩
    unfold execExitSignal
    rw [hget]
    dsimp only
    rw [if_neg hne]
    rw [hok]
    dsimp only
    by_cases hs : r.success = true
    · rw [if_pos hs, if_pos hs]
    · rw [if_neg hs, if_neg hs]

/-- Witness for C3: a snapshot holding 5 AAPL shares and an exit signal; the
sell order placed (and recorded) is for exactly 5 shares, with the successful
result carrying order id 777. -/
theorem c3_witness :
    (execExitSignal cfgA 1 1 [("AAPL", posAAPL5)]
        { symbol := "AAPL", current_price := 150 } {} wSell).1 =
      .ok { successful := [okRes "AAPL" .sell 5 150 (some "777")] } ∧
    (okRes "AAPL" .sell 5 150 (some "777")).shares = (5 : ℚ) := by
  have hok : (placeSellOrder cfgA 1 1 "AAPL" posAAPL5.longQuantity 150 wSell).1
      = .ok (okRes "AAPL" .sell posAAPL5.longQuantity 150 (some "777")) := by
    have h5 : posAAPL5.longQuantity = (5 : ℚ) := rfl
    rw [h5]
    have hbrok : getPortfolioBrokerage wSell.store 1 = some .schwab := by
      simp [getPortfolioBrokerage, readSchwabCredentials, wSell, store1]
    unfold placeSellOrder placeOrderCore
    rw [if_neg (by norm_num : ¬ (5 : ℚ) ≤ 0)]
    rw [hbrok]
    dsimp only
    rw [if_neg (by simp [cfgA] : ¬ ¬ cfgA.enableTrading = true)]
    have hga : getAccountHashFromApi cfgA 1 wSell = (.ok "HASH", wSell) := by
      unfold getAccountHashFromApi
      rfl
    rw [hga]
    dsimp only
    have hcred : readSchwabCredentials wSell.store 1 =
        some ⟨"at", "rt", some "https://cb", some "123"⟩ := by
      simp [readSchwabCredentials, wSell, store1]
    unfold placeOrderViaDirectPost
    rw [hcred]
    dsimp only
    rw [doPost_fst]
    rfl
  have h := (c3_sell_uses_held_quantity cfgA 1 1 [("AAPL", posAAPL5)]
    { symbol := "AAPL", current_price := 150 } {} wSell posAAPL5
    (by simp [mapGet]) (by norm_num [posAAPL5])).2.1
    (okRes "AAPL" .sell posAAPL5.longQuantity 150 (some "777")) hok
  refine ⟨?_, rfl⟩
  rw [h.1]
  rfl


/-! ## C4 -/

/-- C4: when the portfolio has a brokerage binding with trading enabled and
the initial position snapshot fetch fails, `executeTrades` returns (rather
than throws) a summary whose failed list is exactly one synthetic entry for
symbol "ALL" wrapping the underlying error message, with empty successful and
skipped lists, and no order is submitted on any broker (both order logs are
unchanged). -/
theorem c4_fetch_failure_synthetic_all :
    ∀ (cfg : Config) (fuel pid : Nat) (signals : ProcessedSignals) (w : World)
      (b : Brokerage) (e : JsErr),
      getPortfolioBrokerage w.store pid = some b →
      (b = .schwab → cfg.enableTrading = true) →
      (b = .tradier → cfg.tradierEnableTrading = true) →
      (getCurrentPositions cfg fuel pid w).1 = .error e →
      executeTrades cfg fuel pid signals w =
        (.ok { successful := [], skipped := [],
               failed := [failRes "ALL" .buy 0 0 ("Failed to fetch positions: " ++ e.message)] },
         (getCurrentPositions cfg fuel pid w).2) ∧
      (getCurrentPositions cfg fuel pid w).2.orderPosts = w.orderPosts ∧
      (getCurrentPositions cfg fuel pid w).2.tradierOrderLog = w.tradierOrderLog := by
  intro cfg fuel pid signals w b e hb hs ht hfetch
  have hw := getCurrentPositions_world cfg fuel pid w
  refine ⟨?_, hw.1, hw.2⟩
  unfold executeTrades
  dsimp only
  rw [hb]
  rw [if_neg (show ¬ ((some b).isSome = true ∧
      ((some b = some Brokerage.schwab ∧ cfg.enableTrading = false) ∨
       (some b = some Brokerage.tradier ∧ cfg.tradierEnableTrading = false))) by
    cases b
    · simp [hs rfl]
    · simp [ht rfl])]
  rw [if_neg (show ¬ (some b).isNone = true by simp)]
  rw [hfetch]

/-- Witness for C4: a connected Schwab portfolio whose account fetch fails
with message "boom"; the whole batch becomes one synthetic "ALL" failure and
no orders are posted. -/
theorem c4_witness :
    executeTrades cfgA 1 1 ⟨[⟨"AAPL", 0, 0, 150, 10, 0⟩], [], ""⟩ wFail =
      (.ok { successful := [], skipped := [],
             failed := [failRes "ALL" .buy 0 0 "Failed to fetch positions: boom"] },
       (getCurrentPositions cfgA 1 1 wFail).2) ∧
    (getCurrentPositions cfgA 1 1 wFail).2.orderPosts = wFail.orderPosts := by
  have hbrok : getPortfolioBrokerage wFail.store 1 = some .schwab := by
    simp [getPortfolioBrokerage, readSchwabCredentials, wFail, store1]
  have hfetch : (getCurrentPositions cfgA 1 1 wFail).1 = .error (.plain "boom") := by
    unfold getCurrentPositions
    rw [hbrok]
    dsimp only
    have hinit : initializeSchwabClient cfgA 1 wFail = (.ok (), wFail) := by
      unfold initializeSchwabClient
      rfl
    rw [hinit]
    dsimp only
    have hga : getAccountHashFromApi cfgA 1 wFail = (.ok "HASH", wFail) := by
      unfold getAccountHashFromApi
      rfl
    rw [hga]
    rfl
  have h := c4_fetch_failure_synthetic_all cfgA 1 1
    ⟨[⟨"AAPL", 0, 0, 150, 10, 0⟩], [], ""⟩ wFail .schwab (.plain "boom") hbrok (fun _ => rfl)
    (fun hcon => nomatch hcon) hfetch
  exact ⟨h.1, h.2.1⟩


/-! ## C10 -/

/-- `Map.set` keeps the key list duplicate-free. -/
theorem mapSet_keys_nodup (m : PositionsMap) (k : String) (v : Position)
    (h : (m.map Prod.fst).Nodup) : ((mapSet m k v).map Prod.fst).Nodup := by
  unfold mapSet
  split
  · have heq : ((m.map fun e => if e.1 = k then (k, v) else e).map Prod.fst)
        = m.map Prod.fst := by
      rw [List.map_map]
      apply List.map_congr_left
      intro e _he
      by_cases hek : e.1 = k
      · simp [hek]
      · simp [hek]
    rw [heq]
    exact h
  · rename_i hnot
    rw [List.map_append]
    simp only [List.map_cons, List.map_nil]
    refine List.Nodup.append h (List.nodup_singleton k) ?_
    intro a ha hb
    simp only [List.mem_singleton] at hb
    subst hb
    simp only [List.any_eq_true, decide_eq_true_eq, not_exists] at hnot
    rw [List.mem_map] at ha
    obtain ⟨e, he, hek⟩ := ha
    exact absurd he (by simpa [hek] using hnot e)

theorem buildSchwab_keys_nodup (raw : List RawSchwabPosition) :
    ((buildSchwabPositionsMap raw).map Prod.fst).Nodup := by
  suffices h : ∀ (l : List RawSchwabPosition) (m : PositionsMap), (m.map Prod.fst).Nodup →
      (((l.foldl (fun m p =>
          match p.symbol with
          | none => m
          | some s =>
            if s = "" then m
            else
              mapSet m s
                { symbol := s
                  longQuantity := p.longQuantity.getD 0
                  shortQuantity := p.shortQuantity.getD 0
                  currentDayProfitLoss := p.currentDayProfitLoss
                  currentDayProfitLossPercentage := p.currentDayProfitLossPercentage
                  longOpenProfitLoss := p.longOpenProfitLoss
                  marketValue := p.marketValue }) m)).map Prod.fst).Nodup by
    exact h raw [] (by simp)
  intro l
  induction l with
  | nil => intro m hm; simpa using hm
  | cons p rest ih =>
    intro m hm
    rw [List.foldl_cons]
    apply ih
    cases hp : p.symbol with
    | none => simpa using hm
    | some sym =>
      dsimp only
      split
      · exact hm
      · exact mapSet_keys_nodup _ _ _ hm

theorem buildTradier_keys_nodup (positions : List TradierPosition) :
    ((buildTradierPositionsMap positions).map Prod.fst).Nodup := by
  suffices h : ∀ (l : List TradierPosition) (m : PositionsMap), (m.map Prod.fst).Nodup →
      (((l.foldl (fun m p =>
          mapSet m p.symbol
            { symbol := p.symbol, longQuantity := (p.longQuantity : ℚ),
              shortQuantity := 0 }) m)).map Prod.fst).Nodup by
    exact h positions [] (by simp)
  intro l
  induction l with
  | nil => intro m hm; simpa using hm
  | cons p rest ih =>
    intro m hm
    rw [List.foldl_cons]
    exact ih _ (mapSet_keys_nodup _ _ _ hm)

/-- Any position map `getCurrentPositions` returns has duplicate-free keys, so
its size is the number of distinct symbols it holds. -/
theorem getCurrentPositions_ok_nodup (cfg : Config) :
    ∀ (fuel pid : Nat) (w : World) (m : PositionsMap),
      (getCurrentPositions cfg fuel pid w).1 = .ok m → (m.map Prod.fst).Nodup := by
  intro fuel
  induction fuel with
  | zero =>
    intro pid w m h
    unfold getCurrentPositions at h
    split at h
    · split at h
      · simp at h
      · dsimp only at h
        rename_i creds heq
        cases hr1 : (resolveTradierAccountId pid creds w).1 with
        | error e => rw [hr1] at h; simp at h
        | ok accountId =>
          rw [hr1] at h
          dsimp only at h
          cases hr2 : (getTradierPositionsCall (resolveTradierAccountId pid creds w).2).1 with
          | error e => rw [hr2] at h; simp at h
          | ok positions =>
            rw [hr2] at h
            simp only [Except.ok.injEq] at h
            subst h
            exact buildTradier_keys_nodup positions
    · dsimp only at h
      cases hri : (initializeSchwabClient cfg pid w).1 with
      | error e => rw [hri] at h; simp at h
      | ok u =>
        rw [hri] at h
        dsimp only at h
        cases hrh : (getAccountHashFromApi cfg pid (initializeSchwabClient cfg pid w).2).1 with
        | error e => rw [hrh] at h; simp at h
        | ok hsh =>
          rw [hrh] at h
          dsimp only at h
          cases hout : (getAccountHashFromApi cfg pid
              (initializeSchwabClient cfg pid w).2).2.schwabAccountOutcomes.headD
              (.error (.plain "getAccountByNumber network failure")) with
          | ok rawAccount =>
            rw [hout] at h
            simp only [Except.ok.injEq] at h
            subst h
            exact buildSchwab_keys_nodup _
          | error e =>
            rw [hout] at h
            dsimp only at h
            by_cases hexp : isTokenExpired e = true
            · rw [if_pos hexp] at h
              cases hrr : (refreshTokensIfNeeded pid
                  { (getAccountHashFromApi cfg pid (initializeSchwabClient cfg pid w).2).2 with
                    schwabAccountOutcomes := (getAccountHashFromApi cfg pid
                      (initializeSchwabClient cfg pid w).2).2.schwabAccountOutcomes.tail }).1 with
              | error e2 => rw [hrr] at h; simp at h
              | ok tok => rw [hrr] at h; simp at h
            · rw [if_neg hexp] at h
              simp at h
  | succ f ih =>
    intro pid w m h
    unfold getCurrentPositions at h
    split at h
    · split at h
      · simp at h
      · dsimp only at h
        rename_i creds heq
        cases hr1 : (resolveTradierAccountId pid creds w).1 with
        | error e => rw [hr1] at h; simp at h
        | ok accountId =>
          rw [hr1] at h
          dsimp only at h
          cases hr2 : (getTradierPositionsCall (resolveTradierAccountId pid creds w).2).1 with
          | error e => rw [hr2] at h; simp at h
          | ok positions =>
            rw [hr2] at h
            simp only [Except.ok.injEq] at h
            subst h
            exact buildTradier_keys_nodup positions
    · dsimp only at h
      cases hri : (initializeSchwabClient cfg pid w).1 with
      | error e => rw [hri] at h; simp at h
      | ok u =>
        rw [hri] at h
        dsimp only at h
        cases hrh : (getAccountHashFromApi cfg pid (initializeSchwabClient cfg pid w).2).1 with
        | error e => rw [hrh] at h; simp at h
        | ok hsh =>
          rw [hrh] at h
          dsimp only at h
          cases hout : (getAccountHashFromApi cfg pid
              (initializeSchwabClient cfg pid w).2).2.schwabAccountOutcomes.headD
              (.error (.plain "getAccountByNumber network failure")) with
          | ok rawAccount =>
            rw [hout] at h
            simp only [Except.ok.injEq] at h
            subst h
            exact buildSchwab_keys_nodup _
          | error e =>
            rw [hout] at h
            dsimp only at h
            by_cases hexp : isTokenExpired e = true
            · rw [if_pos hexp] at h
              cases hrr : (refreshTokensIfNeeded pid
                  { (getAccountHashFromApi cfg pid (initializeSchwabClient cfg pid w).2).2 with
                    schwabAccountOutcomes := (getAccountHashFromApi cfg pid
                      (initializeSchwabClient cfg pid w).2).2.schwabAccountOutcomes.tail }).1 with
              | error e2 => rw [hrr] at h; simp at h
              | ok tok =>
                rw [hrr] at h
                dsimp only at h
                exact ih pid _ m h
            · rw [if_neg hexp] at h
              simp at h

/-- C10: `verifyConnection` is a total function into a result value — every
internal throw is converted, never propagated. If the portfolio has no
brokerage binding it returns `ok: false` with the fixed no-credentials
message; if the position fetch (or anything inside it) throws, it returns
`ok: false` carrying that error's message; on success it returns `ok: true`
with `positionsCount` the size of the fetched position map, whose keys are
duplicate-free — i.e. the number of distinct symbols fetched. -/
theorem c10_verifyConnection_total :
    ∀ (cfg : Config) (fuel pid : Nat) (w : World),
      (getPortfolioBrokerage w.store pid = none →
        verifyConnection cfg fuel pid w =
          ({ ok := false, message := "No credentials. Link this portfolio via Schwab or Tradier." }, w)) ∧
      (∀ b, getPortfolioBrokerage w.store pid = some b →
        (∀ e, (getCurrentPositions cfg fuel pid w).1 = .error e →
          verifyConnection cfg fuel pid w =
            ({ ok := false, message := e.message }, (getCurrentPositions cfg fuel pid w).2)) ∧
        (∀ m, (getCurrentPositions cfg fuel pid w).1 = .ok m →
          verifyConnection cfg fuel pid w =
            ({ ok := true
               message := (if b = .schwab then "Schwab" else "Tradier") ++ " API connected"
               positionsCount := some m.length }, (getCurrentPositions cfg fuel pid w).2) ∧
          (m.map Prod.fst).Nodup)) := by
  intro cfg fuel pid w
  constructor
  · intro hnone
    unfold verifyConnection
    rw [hnone]
  · intro b hb
    constructor
    · intro e herr
      unfold verifyConnection
      rw [hb]
      dsimp only
      rw [herr]
    · intro m hok
      refine ⟨?_, getCurrentPositions_ok_nodup cfg fuel pid w m hok⟩
      unfold verifyConnection
      rw [hb]
      dsimp only
      rw [hok]

/-- Witness for C10 at a concrete Schwab world whose fetch returns entries for
symbols A, B and a duplicate A: the connection verifies with a positions count
of 2, the number of distinct symbols. -/
theorem c10_witness :
    verifyConnection cfgA 1 1 wVerify =
      ({ ok := true, message := "Schwab API connected", positionsCount := some 2 },
       (getCurrentPositions cfgA 1 1 wVerify).2) ∧
    (((buildSchwabPositionsMap
        [{ symbol := some "A", longQuantity := some 3 },
         { symbol := some "B", longQuantity := some 2 },
         { symbol := some "A", longQuantity := some 4 }]).map Prod.fst)).Nodup := by
  have hbrok : getPortfolioBrokerage wVerify.store 1 = some .schwab := by
    simp [getPortfolioBrokerage, readSchwabCredentials, wVerify, store1]
  have hok : (getCurrentPositions cfgA 1 1 wVerify).1 =
      .ok (buildSchwabPositionsMap
        [{ symbol := some "A", longQuantity := some 3 },
         { symbol := some "B", longQuantity := some 2 },
         { symbol := some "A", longQuantity := some 4 }]) := by
    unfold getCurrentPositions
    rw [hbrok]
    dsimp only
    have hinit : initializeSchwabClient cfgA 1 wVerify = (.ok (), wVerify) := by
      unfold initializeSchwabClient
      rfl
    rw [hinit]
    dsimp only
    have hga : getAccountHashFromApi cfgA 1 wVerify = (.ok "HASH", wVerify) := by
      unfold getAccountHashFromApi
      rfl
    rw [hga]
    rfl
  have h := ((c10_verifyConnection_total cfgA 1 1 wVerify).2 .schwab hbrok).2 _ hok
  refine ⟨?_, h.2⟩
  rw [h.1]
  have hA : ¬ (("A" : String) = "") := by decide
  have hB : ¬ (("B" : String) = "") := by decide
  have hAB : ¬ (("A" : String) = "B") := by decide
  have hBA : ¬ (("B" : String) = "A") := by decide
  have hlen : (buildSchwabPositionsMap
      [{ symbol := some "A", longQuantity := some 3 },
       { symbol := some "B", longQuantity := some 2 },
       { symbol := some "A", longQuantity := some 4 }]).length = 2 := by
    norm_num [buildSchwabPositionsMap, mapSet, List.foldl, List.any_cons, List.any_nil,
      hA, hB, hAB, hBA]
  rw [hlen]
  rfl


/-! ## C1 -/

/-- Closed form of a successful token refresh. -/
theorem refresh_success (pid : Nat) (w : World) (cur : SchwabCredentials) (tok : TokenData)
    (hcred : readSchwabCredentials w.store pid = some cur)
    (hraw : w.refreshRaws.headD (.failure (.plain "refresh network failure")) = .success tok) :
    refreshTokensIfNeeded pid w =
      (.ok tok,
       { w with refreshRaws := w.refreshRaws.tail
                refreshCalls := w.refreshCalls + 1
                store := writeSchwabCredentials w.store pid
                  { accessToken := tok.accessToken
                    refreshToken := tok.refreshToken.getD cur.refreshToken
                    redirectUri := cur.redirectUri
                    accountNumber := cur.accountNumber }
                clientCache := fun p => if p = pid then false else w.clientCache p
                hashCache := fun p => if p = pid then none else w.hashCache p }) := by
  unfold refreshTokensIfNeeded
  rw [hcred]
  dsimp only
  rw [hraw]
  dsimp only
  rw [hcred]
  cases htok : tok.refreshToken with
  | none => simp [Option.orElse, htok]
  | some rt => simp [Option.orElse, htok]

/-- C1: on the Schwab direct-POST path, an order rejected with HTTP 401 whose
refresh succeeds is resubmitted exactly once with the SAME order body; a
second failure of any kind is terminal and recorded as a failure result
carrying the underlying error message (not rethrown); the refreshed token is
persisted before the retry and is still the stored credential afterwards;
exactly one refresh call happens; and — for every world whatsoever — an
execution of the order function performs at most two underlying network order
POSTs, each carrying the same order body. -/
theorem c1_schwab_auth_retry_once :
    ∀ (cfg : Config) (instr : Instruction) (fuel pid : Nat) (symbol : String)
      (shares price : ℚ) (w : World) (cred : SchwabCredentials) (tok : TokenData)
      (st : String) (d : Option String) (o2 : PostOutcome) (e2 : JsErr)
      (rr : List RefreshRaw) (hv : String),
      0 < shares →
      getPortfolioBrokerage w.store pid = some .schwab →
      cfg.enableTrading = true →
      w.hashCache pid = some hv →
      readSchwabCredentials w.store pid = some cred →
      w.postOutcomes = [PostOutcome.httpErr 401 st d, o2] →
      doPostResult o2 = .error e2 →
      w.refreshRaws = RefreshRaw.success tok :: rr →
      tok.accessToken ≠ "" →
      tok.refreshToken = none →
      (placeOrderCore cfg instr fuel pid symbol shares price w).1
          = .ok (failRes symbol instr shares price e2.message) ∧
      (placeOrderCore cfg instr fuel pid symbol shares price w).2.orderPosts
          = w.orderPosts ++ [buildSchwabOrderBody cfg.orderType instr symbol shares price,
                             buildSchwabOrderBody cfg.orderType instr symbol shares price] ∧
      (placeOrderCore cfg instr fuel pid symbol shares price w).2.refreshCalls
          = w.refreshCalls + 1 ∧
      (placeOrderCore cfg instr fuel pid symbol shares price w).2.store.schwab pid
          = some { accessToken := tok.accessToken, refreshToken := cred.refreshToken,
                   redirectUri := cred.redirectUri, accountNumber := cred.accountNumber } ∧
      (∀ wa : World, ∃ n ≤ 2,
        (placeOrderCore cfg instr fuel pid symbol shares price wa).2.orderPosts
          = wa.orderPosts ++ List.replicate n
              (buildSchwabOrderBody cfg.orderType instr symbol shares price)) := by
  intro cfg instr fuel pid symbol shares price w cred tok st d o2 e2 rr hv
    hs hb ht hh hcred hp ho2 hraws htokA htokR
  have hcredR := (readSchwab_some_fields hcred).2
  have hga : getAccountHashFromApi cfg pid w = (.ok hv, w) := by
    unfold getAccountHashFromApi
    rw [hh]
  obtain ⟨m1, hdp1⟩ : ∃ m1,
      (doPost (buildSchwabOrderBody cfg.orderType instr symbol shares price) w).1
        = .error (JsErr.http 401 m1) := by
    rw [doPost_fst, hp]
    exact ⟨_, rfl⟩
  have h401 : (JsErr.http 401 m1).is401 = true := rfl
  have hrefresh := refresh_success pid
    (doPost (buildSchwabOrderBody cfg.orderType instr symbol shares price) w).2 cred tok
    hcred
    (by rw [show (doPost (buildSchwabOrderBody cfg.orderType instr symbol shares price) w).2.refreshRaws
          = w.refreshRaws from rfl, hraws]
        rfl)
  have hpodp : placeOrderViaDirectPost pid hv
      (buildSchwabOrderBody cfg.orderType instr symbol shares price) w
      = doPost (buildSchwabOrderBody cfg.orderType instr symbol shares price)
          (refreshTokensIfNeeded pid
            (doPost (buildSchwabOrderBody cfg.orderType instr symbol shares price) w).2).2 := by
    unfold placeOrderViaDirectPost
    rw [hcred]
    dsimp only
    rw [hdp1]
    dsimp only
    rw [if_pos h401]
    rw [hrefresh]
    dsimp only
    rw [readSchwab_write_self]
    rw [htokR]
    rw [if_neg (by simp [htokA, hcredR])]
  have h1 : (placeOrderViaDirectPost pid hv
      (buildSchwabOrderBody cfg.orderType instr symbol shares price) w).1 = .error e2 := by
    rw [hpodp, doPost_fst, hrefresh]
    dsimp only
    rw [show (doPost (buildSchwabOrderBody cfg.orderType instr symbol shares price) w).2.postOutcomes
        = w.postOutcomes.tail from rfl, hp]
    exact ho2
  have hnexp : isTokenExpired e2 = false := doPostResult_not_tokenExpired o2 e2 ho2
  have hmain : placeOrderCore cfg instr fuel pid symbol shares price w
      = (.ok (failRes symbol instr shares price e2.message),
         (doPost (buildSchwabOrderBody cfg.orderType instr symbol shares price)
           (refreshTokensIfNeeded pid
             (doPost (buildSchwabOrderBody cfg.orderType instr symbol shares price) w).2).2).2) := by
    unfold placeOrderCore
    rw [if_neg (not_le.mpr hs)]
    rw [hb]
    dsimp only
    rw [if_neg (by simp [ht])]
    rw [hga]
    dsimp only
    rw [h1]
    dsimp only
    rw [hnexp]
    simp only [Bool.false_eq_true, if_false]
    rw [show (placeOrderViaDirectPost pid hv
        (buildSchwabOrderBody cfg.orderType instr symbol shares price) w).2
        = (doPost (buildSchwabOrderBody cfg.orderType instr symbol shares price)
            (refreshTokensIfNeeded pid
              (doPost (buildSchwabOrderBody cfg.orderType instr symbol shares price) w).2).2).2
      from congrArg Prod.snd hpodp]
  refine ⟨?_, ?_, ?_, ?_,
    fun wa => (placeOrderCore_posts cfg instr fuel pid symbol shares price wa).1⟩
  · rw [hmain]
  · rw [hmain]
    dsimp only
    rw [(doPost_world _ _).1, hrefresh]
    dsimp only
    rw [show (doPost (buildSchwabOrderBody cfg.orderType instr symbol shares price) w).2.orderPosts
        = w.orderPosts ++ [buildSchwabOrderBody cfg.orderType instr symbol shares price] from rfl]
    simp
  · rw [hmain]
    dsimp only
    rw [(doPost_world _ _).2.2.2, hrefresh]
    rfl
  · rw [hmain]
    dsimp only
    rw [(doPost_world _ _).2.2.1, hrefresh]
    dsimp only
    rw [htokR]
    simp [writeSchwabCredentials]


/-- Witness for C1: a concrete Schwab order whose first POST gets HTTP 401,
whose refresh succeeds, and whose retried POST fails with HTTP 500 — the call
returns a failure result with the 500 message, exactly two POSTs of the same
body were made, exactly one refresh happened, and the refreshed access token
is the stored credential. -/
theorem c1_witness :
    (placeOrderCore cfgA .buy 0 1 "AAPL" 10 150 wRetry).1
      = .ok (failRes "AAPL" .buy 10 150
          "Schwab place order failed: 500 Internal Server Error - boom") ∧
    (placeOrderCore cfgA .buy 0 1 "AAPL" 10 150 wRetry).2.orderPosts
      = [buildSchwabOrderBody cfgA.orderType .buy "AAPL" 10 150,
         buildSchwabOrderBody cfgA.orderType .buy "AAPL" 10 150] ∧
    (placeOrderCore cfgA .buy 0 1 "AAPL" 10 150 wRetry).2.refreshCalls = 1 ∧
    (placeOrderCore cfgA .buy 0 1 "AAPL" 10 150 wRetry).2.store.schwab 1
      = some ⟨"at2", "rt", some "https://cb", some "123"⟩ := by
  have h := c1_schwab_auth_retry_once cfgA .buy 0 1 "AAPL" 10 150 wRetry
    ⟨"at", "rt", some "https://cb", some "123"⟩ ⟨"at2", none⟩
    "Unauthorized" none (.httpErr 500 "Internal Server Error" (some "boom"))
    (.http 500 "Schwab place order failed: 500 Internal Server Error - boom") [] "HASH"
    (by norm_num)
    (by simp [getPortfolioBrokerage, readSchwabCredentials, wRetry, store1])
    rfl rfl
    (by simp [readSchwabCredentials, wRetry, store1])
    rfl rfl rfl (by decide) rfl
  refine ⟨h.1, ?_, ?_, h.2.2.2.1⟩
  · rw [h.2.1]
    rfl
  · rw [h.2.2.1]
    rfl

end EquiAlgo
